import Mathlib

/-!
# Verification of the nova-ecs-render-canvas rendering core

Shallow embedding of the Canvas 2D rendering backend
(`src/utils/CoordinateSystem.ts`, `src/utils/StyleManager.ts`,
`src/utils/BatchManager.ts`, `src/CanvasRenderer.ts`) together with proofs of
the specification's testable properties.

Modelling conventions:
* JavaScript `number` values are modelled as exact rationals (`ℚ`).
* The external fixed-point scalar `Fixed` from `@esengine/nova-ecs-math` is
  modelled from the spec: §3 states "all arithmetic between them is exact
  fixed-point", so `Fixed` values and their arithmetic are modelled as exact
  rationals as well (`toNumber` is then the identity).
* The mutable `CanvasRenderingContext2D` becomes an explicit state record with
  a save stack; raster draw operations (path fills/strokes, `drawImage`,
  `console.warn`) become events in a returned trace list.
-/

/-- 2D vector of fixed-point scalars (`FixedVector2` of nova-ecs-math,
modelled as exact rationals). -/
structure FixedVector2 where
  x : ℚ
  y : ℚ
deriving DecidableEq, Repr

/-- Rectangle of fixed-point scalars (`FixedRect` of nova-ecs-math). -/
structure FixedRect where
  x : ℚ
  y : ℚ
  width : ℚ
  height : ℚ
deriving DecidableEq, Repr

/-- Screen coordinates in pixels (interface `ScreenPoint`). -/
structure ScreenPoint where
  x : ℚ
  y : ℚ
deriving DecidableEq, Repr

/-- Screen size in pixels (interface `ScreenSize`). -/
structure ScreenSize where
  width : ℚ
  height : ℚ
deriving DecidableEq, Repr

/-- Screen-space rectangle, the anonymous record returned by
`CoordinateSystem.worldToScreenRect`. -/
structure ScreenRect where
  x : ℚ
  y : ℚ
  width : ℚ
  height : ℚ
deriving DecidableEq, Repr

/-- State of the `CoordinateSystem` class: pixels-per-unit scale, canvas size,
camera position and camera zoom.  (The `devicePixelRatio` field only feeds
`applyHighDPIScaling`, which manipulates the DOM canvas element and is not
modelled; none of the conversion functions read it.) -/
structure CoordinateSystem where
  pixelsPerUnit : ℚ
  canvasSize : ScreenSize
  cameraPosition : FixedVector2
  cameraZoom : ℚ
deriving DecidableEq, Repr

/-- `CoordinateSystem.worldToScreen`: subtract the camera position, scale by
camera zoom, convert to pixels, then place the origin at the canvas center
with the Y axis flipped. -/
def CoordinateSystem.worldToScreen (s : CoordinateSystem) (worldPos : FixedVector2) :
    ScreenPoint :=
  let relX := worldPos.x - s.cameraPosition.x
  let relY := worldPos.y - s.cameraPosition.y
  let scaledX := relX * s.cameraZoom
  let scaledY := relY * s.cameraZoom
  let pixelX := scaledX * s.pixelsPerUnit
  let pixelY := scaledY * s.pixelsPerUnit
  { x := pixelX + s.canvasSize.width / 2
    y := s.canvasSize.height / 2 - pixelY }

/-- `CoordinateSystem.screenToWorld`: undo the center offset and Y flip,
divide by pixels-per-unit, divide by zoom, add the camera position. -/
def CoordinateSystem.screenToWorld (s : CoordinateSystem) (screenPos : ScreenPoint) :
    FixedVector2 :=
  let pixelX := screenPos.x - s.canvasSize.width / 2
  let pixelY := s.canvasSize.height / 2 - screenPos.y
  let worldX := pixelX / s.pixelsPerUnit
  let worldY := pixelY / s.pixelsPerUnit
  { x := worldX / s.cameraZoom + s.cameraPosition.x
    y := worldY / s.cameraZoom + s.cameraPosition.y }

/-- `CoordinateSystem.worldToScreenDistance`: scalar-only conversion. -/
def CoordinateSystem.worldToScreenDistance (s : CoordinateSystem) (worldDistance : ℚ) : ℚ :=
  worldDistance * s.pixelsPerUnit * s.cameraZoom

/-- `CoordinateSystem.screenToWorldDistance`: scalar-only inverse conversion. -/
def CoordinateSystem.screenToWorldDistance (s : CoordinateSystem) (screenPixels : ℚ) : ℚ :=
  screenPixels / (s.pixelsPerUnit * s.cameraZoom)

/-- `CoordinateSystem.worldToScreenRect`: converts the world rectangle's
top-left and bottom-right corners independently and derives screen
width/height from their difference. -/
def CoordinateSystem.worldToScreenRect (s : CoordinateSystem) (worldRect : FixedRect) :
    ScreenRect :=
  let topLeft := s.worldToScreen ⟨worldRect.x, worldRect.y + worldRect.height⟩
  let bottomRight := s.worldToScreen ⟨worldRect.x + worldRect.width, worldRect.y⟩
  { x := topLeft.x
    y := topLeft.y
    width := bottomRight.x - topLeft.x
    height := bottomRight.y - topLeft.y }

/-- **C1.** For every world point `p`, under any camera position, camera zoom,
pixels-per-unit and canvas size (with the nondegeneracy conditions that zoom
and pixels-per-unit are nonzero, without which the conversions divide by
zero), `screenToWorld (worldToScreen p) = p` — exactly, hence within any
rounding tolerance.  The same round trip holds for the distance conversions,
and for the rectangle variant: converting back the two screen corners produced
by `worldToScreenRect` recovers the world rectangle's corners. -/
theorem coordinate_system_roundtrip (s : CoordinateSystem)
    (hz : s.cameraZoom ≠ 0) (hp : s.pixelsPerUnit ≠ 0)
    (p : FixedVector2) (d : ℚ) (r : FixedRect) :
    s.screenToWorld (s.worldToScreen p) = p ∧
    s.screenToWorldDistance (s.worldToScreenDistance d) = d ∧
    s.screenToWorld ⟨(s.worldToScreenRect r).x, (s.worldToScreenRect r).y⟩ =
      ⟨r.x, r.y + r.height⟩ ∧
    s.screenToWorld
        ⟨(s.worldToScreenRect r).x + (s.worldToScreenRect r).width,
         (s.worldToScreenRect r).y + (s.worldToScreenRect r).height⟩ =
      ⟨r.x + r.width, r.y⟩ := by
  obtain ⟨px, py⟩ := p
  refine ⟨?_, ?_, ?_, ?_⟩ <;>
    simp only [CoordinateSystem.worldToScreen, CoordinateSystem.screenToWorld,
      CoordinateSystem.worldToScreenDistance, CoordinateSystem.screenToWorldDistance,
      CoordinateSystem.worldToScreenRect, FixedVector2.mk.injEq]
  · constructor <;> (field_simp; try ring)
  · field_simp; ring
  · constructor <;> (field_simp; try ring)
  · constructor <;> (field_simp; try ring)

/-- A concrete nondegenerate coordinate-system state used by the C1 witness
(camera at (3, -4), zoom 2, 100 pixels per unit, 800×600 canvas). -/
def sampleCoordSystem : CoordinateSystem := ⟨100, ⟨800, 600⟩, ⟨3, -4⟩, 2⟩

/-- Witness for C1 at a concrete nondegenerate state. -/
theorem coordinate_system_roundtrip_witness :
    sampleCoordSystem.screenToWorld (sampleCoordSystem.worldToScreen ⟨5, 7⟩) = ⟨5, 7⟩ ∧
    sampleCoordSystem.screenToWorldDistance
      (sampleCoordSystem.worldToScreenDistance (13 / 2)) = 13 / 2 ∧
    sampleCoordSystem.screenToWorld
        ⟨(sampleCoordSystem.worldToScreenRect ⟨1, 2, 3, 4⟩).x,
         (sampleCoordSystem.worldToScreenRect ⟨1, 2, 3, 4⟩).y⟩ = ⟨1, 2 + 4⟩ ∧
    sampleCoordSystem.screenToWorld
        ⟨(sampleCoordSystem.worldToScreenRect ⟨1, 2, 3, 4⟩).x +
            (sampleCoordSystem.worldToScreenRect ⟨1, 2, 3, 4⟩).width,
         (sampleCoordSystem.worldToScreenRect ⟨1, 2, 3, 4⟩).y +
            (sampleCoordSystem.worldToScreenRect ⟨1, 2, 3, 4⟩).height⟩ = ⟨1 + 3, 2⟩ :=
  coordinate_system_roundtrip sampleCoordSystem
    (by norm_num [sampleCoordSystem]) (by norm_num [sampleCoordSystem])
    ⟨5, 7⟩ (13 / 2) ⟨1, 2, 3, 4⟩

/-- **C5.** With the default camera (position zero, zoom one) and
`pixelsPerUnit = 100` on a canvas of width `W` and height `H`:
`worldToScreen (0,0) = (W/2, H/2)`, `worldToScreen (1,0) = (W/2 + 100, H/2)`,
and `worldToScreen (0,1) = (W/2, H/2 - 100)` — the Y axis is inverted. -/
theorem world_to_screen_default_camera (W H : ℚ) :
    (CoordinateSystem.mk 100 ⟨W, H⟩ ⟨0, 0⟩ 1).worldToScreen ⟨0, 0⟩ = ⟨W / 2, H / 2⟩ ∧
    (CoordinateSystem.mk 100 ⟨W, H⟩ ⟨0, 0⟩ 1).worldToScreen ⟨1, 0⟩ = ⟨W / 2 + 100, H / 2⟩ ∧
    (CoordinateSystem.mk 100 ⟨W, H⟩ ⟨0, 0⟩ 1).worldToScreen ⟨0, 1⟩ = ⟨W / 2, H / 2 - 100⟩ := by
  refine ⟨?_, ?_, ?_⟩ <;>
    simp only [CoordinateSystem.worldToScreen, ScreenPoint.mk.injEq] <;>
    constructor <;> ring

/-- RGBA color (render-core `Color`; components are JS numbers in [0,1]). -/
structure Color where
  r : ℚ
  g : ℚ
  b : ℚ
  a : ℚ
deriving DecidableEq, Repr

/-- Modelled from the spec: `ColorUtils.toHex` of `@esengine/nova-ecs-render-core`
(not part of this repository) "resolves color to a paint string" (§4.2); we
model it as a deterministic paint-string encoding of the four components. -/
def ColorUtils.toHex (c : Color) : String :=
  "rgba(" ++ toString c.r ++ "," ++ toString c.g ++ "," ++ toString c.b
    ++ "," ++ toString c.a ++ ")"

/-- Line style descriptor (render-core `LineStyle`). -/
structure LineStyle where
  color : Color
  thickness : ℚ
  dashPattern : Option (List ℚ) := none
deriving DecidableEq, Repr

/-- Shape style descriptor (render-core `ShapeStyle`); absent fields are
`none` (JS `undefined`). -/
structure ShapeStyle where
  fillColor : Option Color := none
  strokeColor : Option Color := none
  strokeThickness : Option ℚ := none
  dashPattern : Option (List ℚ) := none
deriving DecidableEq, Repr

/-- Text style descriptor (render-core `TextStyle`). -/
structure TextStyle where
  color : Color
  fontSize : ℚ
  fontFamily : Option String := none
  fontWeight : Option String := none
  fontStyle : Option String := none
  textAlign : Option String := none
  textBaseline : Option String := none
deriving DecidableEq, Repr

/-- Blend modes recognized by `StyleManager.blendModeToCanvas`. -/
inductive BlendMode where
  | Normal | Add | Multiply | Screen | Overlay | Darken | Lighten
deriving DecidableEq, Repr

/-- Recorded transform operation applied to the raster context (the effect of
`ctx.translate` / `ctx.rotate` / `ctx.scale`). -/
inductive CtxTransformOp where
  | translate (x y : ℚ)
  | rotate (angle : ℚ)
  | scaleBy (x y : ℚ)
deriving DecidableEq, Repr

/-- The attribute state of a `CanvasRenderingContext2D` (the raster state that
`save`/`restore` snapshot), with the HTML-canvas default values. -/
structure CanvasContext2D where
  strokeStyle : String := "#000000"
  fillStyle : String := "#000000"
  lineWidth : ℚ := 1
  font : String := "10px sans-serif"
  textAlign : String := "start"
  textBaseline : String := "alphabetic"
  globalAlpha : ℚ := 1
  globalCompositeOperation : String := "source-over"
  lineDash : List ℚ := []
  transformOps : List CtxTransformOp := []
deriving DecidableEq, Repr

/-- A raster context: current attribute state plus the `save`/`restore`
snapshot stack. -/
structure CanvasCtx where
  attrs : CanvasContext2D := {}
  saved : List CanvasContext2D := []
deriving DecidableEq, Repr

/-- `ctx.save()`: push the current raster state on the stack. -/
def CanvasCtx.save (c : CanvasCtx) : CanvasCtx :=
  { c with saved := c.attrs :: c.saved }

/-- `ctx.restore()`: pop the most recent snapshot; a no-op when the stack is
empty (HTML canvas behavior). -/
def CanvasCtx.restore (c : CanvasCtx) : CanvasCtx :=
  match c.saved with
  | [] => c
  | a :: rest => { attrs := a, saved := rest }

/-- Last-applied style values memoized by the `StyleManager`
(interface `StyleCacheEntry`); every field starts absent. -/
structure StyleCacheEntry where
  strokeStyle : Option String := none
  fillStyle : Option String := none
  lineWidth : Option ℚ := none
  font : Option String := none
  textAlign : Option String := none
  textBaseline : Option String := none
  globalAlpha : Option ℚ := none
  globalCompositeOperation : Option String := none
deriving DecidableEq, Repr

/-- State of the `StyleManager` class, holding (a reference to) the raster
context, the cached-style snapshot, the style-change counter and the caching
flag. -/
structure StyleManager where
  ctx : CanvasCtx
  currentStyle : StyleCacheEntry := {}
  styleChangeCount : ℕ := 0
  enableCaching : Bool := true
deriving DecidableEq, Repr

/-- `StyleManager.setStrokeStyle`: write the stroke paint and count the change
unless caching is enabled and the cached value already matches. -/
def StyleManager.setStrokeStyle (m : StyleManager) (style : String) : StyleManager :=
  if !m.enableCaching || m.currentStyle.strokeStyle ≠ some style then
    { m with ctx.attrs.strokeStyle := style
             currentStyle.strokeStyle := some style
             styleChangeCount := m.styleChangeCount + 1 }
  else m

/-- `StyleManager.setFillStyle` (caching as in `setStrokeStyle`). -/
def StyleManager.setFillStyle (m : StyleManager) (style : String) : StyleManager :=
  if !m.enableCaching || m.currentStyle.fillStyle ≠ some style then
    { m with ctx.attrs.fillStyle := style
             currentStyle.fillStyle := some style
             styleChangeCount := m.styleChangeCount + 1 }
  else m

/-- `StyleManager.setLineWidth` (caching as in `setStrokeStyle`). -/
def StyleManager.setLineWidth (m : StyleManager) (width : ℚ) : StyleManager :=
  if !m.enableCaching || m.currentStyle.lineWidth ≠ some width then
    { m with ctx.attrs.lineWidth := width
             currentStyle.lineWidth := some width
             styleChangeCount := m.styleChangeCount + 1 }
  else m

/-- `StyleManager.setFont` (caching as in `setStrokeStyle`). -/
def StyleManager.setFont (m : StyleManager) (font : String) : StyleManager :=
  if !m.enableCaching || m.currentStyle.font ≠ some font then
    { m with ctx.attrs.font := font
             currentStyle.font := some font
             styleChangeCount := m.styleChangeCount + 1 }
  else m

/-- `StyleManager.setTextAlign` (caching as in `setStrokeStyle`). -/
def StyleManager.setTextAlign (m : StyleManager) (align : String) : StyleManager :=
  if !m.enableCaching || m.currentStyle.textAlign ≠ some align then
    { m with ctx.attrs.textAlign := align
             currentStyle.textAlign := some align
             styleChangeCount := m.styleChangeCount + 1 }
  else m

/-- `StyleManager.setTextBaseline` (caching as in `setStrokeStyle`). -/
def StyleManager.setTextBaseline (m : StyleManager) (baseline : String) : StyleManager :=
  if !m.enableCaching || m.currentStyle.textBaseline ≠ some baseline then
    { m with ctx.attrs.textBaseline := baseline
             currentStyle.textBaseline := some baseline
             styleChangeCount := m.styleChangeCount + 1 }
  else m

/-- `StyleManager.setGlobalAlpha` (caching as in `setStrokeStyle`). -/
def StyleManager.setGlobalAlpha (m : StyleManager) (alpha : ℚ) : StyleManager :=
  if !m.enableCaching || m.currentStyle.globalAlpha ≠ some alpha then
    { m with ctx.attrs.globalAlpha := alpha
             currentStyle.globalAlpha := some alpha
             styleChangeCount := m.styleChangeCount + 1 }
  else m

/-- `StyleManager.setGlobalCompositeOperation` (caching as in
`setStrokeStyle`). -/
def StyleManager.setGlobalCompositeOperation (m : StyleManager) (op : String) : StyleManager :=
  if !m.enableCaching || m.currentStyle.globalCompositeOperation ≠ some op then
    { m with ctx.attrs.globalCompositeOperation := op
             currentStyle.globalCompositeOperation := some op
             styleChangeCount := m.styleChangeCount + 1 }
  else m

/-- The dash-pattern branch shared by `applyLineStyle` and `applyShapeStyle`:
`ctx.setLineDash` is written directly (uncached, uncounted). -/
def StyleManager.applyDashPattern (m : StyleManager) (dashPattern : Option (List ℚ)) :
    StyleManager :=
  match dashPattern with
  | some l => if l.length > 0 then { m with ctx.attrs.lineDash := l }
              else { m with ctx.attrs.lineDash := [] }
  | none => { m with ctx.attrs.lineDash := [] }

/-- `StyleManager.applyLineStyle`: stroke paint, line width, dash pattern. -/
def StyleManager.applyLineStyle (m : StyleManager) (style : LineStyle) : StyleManager :=
  let colorStr := ColorUtils.toHex style.color
  let lineWidth := style.thickness
  let m := m.setStrokeStyle colorStr
  let m := m.setLineWidth lineWidth
  m.applyDashPattern style.dashPattern

/-- `StyleManager.applyShapeStyle`: conditionally fill paint and/or stroke
paint + width + dash pattern; absent fields are left untouched. -/
def StyleManager.applyShapeStyle (m : StyleManager) (style : ShapeStyle) : StyleManager :=
  let m := match style.fillColor with
    | some c => m.setFillStyle (ColorUtils.toHex c)
    | none => m
  match style.strokeColor with
  | some c =>
      let m := m.setStrokeStyle (ColorUtils.toHex c)
      let m := match style.strokeThickness with
        | some t => m.setLineWidth t
        | none => m
      m.applyDashPattern style.dashPattern
  | none => m

/-- `StyleManager.applyTextStyle`: fill paint from the text color, composed
font descriptor string (defaults: normal weight and style, family "Arial"),
optional alignment and baseline. -/
def StyleManager.applyTextStyle (m : StyleManager) (style : TextStyle) : StyleManager :=
  let colorStr := ColorUtils.toHex style.color
  let m := m.setFillStyle colorStr
  let fontWeight := style.fontWeight.getD "normal"
  let fontStyle := style.fontStyle.getD "normal"
  let fontStr := fontStyle ++ " " ++ fontWeight ++ " " ++ toString style.fontSize
    ++ "px " ++ style.fontFamily.getD "Arial"
  let m := m.setFont fontStr
  let m := match style.textAlign with
    | some a => m.setTextAlign a
    | none => m
  match style.textBaseline with
  | some b => m.setTextBaseline b
  | none => m

/-- `StyleManager.blendModeToCanvas`: map blend modes to composite-operation
identifiers, defaulting to source-over. -/
def StyleManager.blendModeToCanvas (blendMode : BlendMode) : String :=
  match blendMode with
  | BlendMode.Normal => "source-over"
  | BlendMode.Add => "lighter"
  | BlendMode.Multiply => "multiply"
  | BlendMode.Screen => "screen"
  | BlendMode.Overlay => "overlay"
  | BlendMode.Darken => "darken"
  | BlendMode.Lighten => "lighten"

/-- `StyleManager.applyBlendMode`. -/
def StyleManager.applyBlendMode (m : StyleManager) (blendMode : BlendMode) : StyleManager :=
  m.setGlobalCompositeOperation (StyleManager.blendModeToCanvas blendMode)

/-- `StyleManager.applyOpacity`: sets global alpha directly. -/
def StyleManager.applyOpacity (m : StyleManager) (opacity : ℚ) : StyleManager :=
  m.setGlobalAlpha opacity

/-- `StyleManager.saveState`: delegates to `ctx.save()`. -/
def StyleManager.saveState (m : StyleManager) : StyleManager :=
  { m with ctx := m.ctx.save }

/-- `StyleManager.restoreState`: delegates to `ctx.restore()` and clears the
cached-style snapshot. -/
def StyleManager.restoreState (m : StyleManager) : StyleManager :=
  { m with ctx := m.ctx.restore, currentStyle := {} }

/-- `StyleManager.resetCache`: clears the snapshot without touching the
raster context. -/
def StyleManager.resetCache (m : StyleManager) : StyleManager :=
  { m with currentStyle := {} }

lemma StyleManager.setStrokeStyle_enableCaching (m : StyleManager) (v : String) :
    (m.setStrokeStyle v).enableCaching = m.enableCaching := by
  unfold StyleManager.setStrokeStyle; split <;> rfl

lemma StyleManager.setLineWidth_enableCaching (m : StyleManager) (v : ℚ) :
    (m.setLineWidth v).enableCaching = m.enableCaching := by
  unfold StyleManager.setLineWidth; split <;> rfl

lemma StyleManager.setStrokeStyle_cache (m : StyleManager) (v : String) :
    (m.setStrokeStyle v).currentStyle.strokeStyle = some v := by
  unfold StyleManager.setStrokeStyle
  split
  · rfl
  · next h =>
      simp only [Bool.or_eq_true, Bool.not_eq_true', decide_eq_true_eq, not_or,
        not_not] at h
      exact h.2

lemma StyleManager.setStrokeStyle_lineWidth_cache (m : StyleManager) (v : String) :
    (m.setStrokeStyle v).currentStyle.lineWidth = m.currentStyle.lineWidth := by
  unfold StyleManager.setStrokeStyle; split <;> rfl

lemma StyleManager.setLineWidth_cache (m : StyleManager) (v : ℚ) :
    (m.setLineWidth v).currentStyle.lineWidth = some v := by
  unfold StyleManager.setLineWidth
  split
  · rfl
  · next h =>
      simp only [Bool.or_eq_true, Bool.not_eq_true', decide_eq_true_eq, not_or,
        not_not] at h
      exact h.2

lemma StyleManager.setLineWidth_strokeStyle_cache (m : StyleManager) (v : ℚ) :
    (m.setLineWidth v).currentStyle.strokeStyle = m.currentStyle.strokeStyle := by
  unfold StyleManager.setLineWidth; split <;> rfl

lemma StyleManager.setStrokeStyle_hit (m : StyleManager) (v : String)
    (hc : m.enableCaching = true) (hs : m.currentStyle.strokeStyle = some v) :
    m.setStrokeStyle v = m := by
  unfold StyleManager.setStrokeStyle
  split
  · next h =>
      simp only [Bool.or_eq_true, Bool.not_eq_true', decide_eq_true_eq, hc, hs] at h
      simp at h
  · rfl

lemma StyleManager.setLineWidth_hit (m : StyleManager) (v : ℚ)
    (hc : m.enableCaching = true) (hs : m.currentStyle.lineWidth = some v) :
    m.setLineWidth v = m := by
  unfold StyleManager.setLineWidth
  split
  · next h =>
      simp only [Bool.or_eq_true, Bool.not_eq_true', decide_eq_true_eq, hc, hs] at h
      simp at h
  · rfl

lemma StyleManager.setStrokeStyle_uncached (m : StyleManager) (v : String)
    (hc : m.enableCaching = false) :
    (m.setStrokeStyle v).styleChangeCount = m.styleChangeCount + 1 := by
  unfold StyleManager.setStrokeStyle
  split
  · rfl
  · next h =>
      simp only [Bool.or_eq_true, Bool.not_eq_true', decide_eq_true_eq, hc] at h
      simp at h

lemma StyleManager.setLineWidth_uncached (m : StyleManager) (v : ℚ)
    (hc : m.enableCaching = false) :
    (m.setLineWidth v).styleChangeCount = m.styleChangeCount + 1 := by
  unfold StyleManager.setLineWidth
  split
  · rfl
  · next h =>
      simp only [Bool.or_eq_true, Bool.not_eq_true', decide_eq_true_eq, hc] at h
      simp at h

lemma StyleManager.setStrokeStyle_uncached_state (m : StyleManager) (v : String)
    (hc : m.enableCaching = false) :
    (m.setStrokeStyle v).enableCaching = false ∧
    (m.setStrokeStyle v).styleChangeCount = m.styleChangeCount + 1 := by
  exact ⟨by rw [StyleManager.setStrokeStyle_enableCaching]; exact hc,
    StyleManager.setStrokeStyle_uncached m v hc⟩

lemma StyleManager.applyDashPattern_styleChangeCount (m : StyleManager)
    (dp : Option (List ℚ)) :
    (m.applyDashPattern dp).styleChangeCount = m.styleChangeCount := by
  unfold StyleManager.applyDashPattern
  cases dp with
  | none => rfl
  | some l => dsimp only; split <;> rfl

lemma StyleManager.applyDashPattern_currentStyle (m : StyleManager)
    (dp : Option (List ℚ)) :
    (m.applyDashPattern dp).currentStyle = m.currentStyle := by
  unfold StyleManager.applyDashPattern
  cases dp with
  | none => rfl
  | some l => dsimp only; split <;> rfl

lemma StyleManager.applyDashPattern_enableCaching (m : StyleManager)
    (dp : Option (List ℚ)) :
    (m.applyDashPattern dp).enableCaching = m.enableCaching := by
  unfold StyleManager.applyDashPattern
  cases dp with
  | none => rfl
  | some l => dsimp only; split <;> rfl

lemma StyleManager.applyLineStyle_enableCaching (m : StyleManager) (s : LineStyle) :
    (m.applyLineStyle s).enableCaching = m.enableCaching := by
  unfold StyleManager.applyLineStyle
  rw [StyleManager.applyDashPattern_enableCaching, StyleManager.setLineWidth_enableCaching,
    StyleManager.setStrokeStyle_enableCaching]

lemma StyleManager.applyLineStyle_strokeStyle_cache (m : StyleManager) (s : LineStyle) :
    (m.applyLineStyle s).currentStyle.strokeStyle = some (ColorUtils.toHex s.color) := by
  unfold StyleManager.applyLineStyle
  rw [StyleManager.applyDashPattern_currentStyle, StyleManager.setLineWidth_strokeStyle_cache,
    StyleManager.setStrokeStyle_cache]

lemma StyleManager.applyLineStyle_lineWidth_cache (m : StyleManager) (s : LineStyle) :
    (m.applyLineStyle s).currentStyle.lineWidth = some s.thickness := by
  unfold StyleManager.applyLineStyle
  rw [StyleManager.applyDashPattern_currentStyle, StyleManager.setLineWidth_cache]

lemma StyleManager.applyLineStyle_cached_hit (m : StyleManager) (s : LineStyle)
    (hc : m.enableCaching = true)
    (h1 : m.currentStyle.strokeStyle = some (ColorUtils.toHex s.color))
    (h2 : m.currentStyle.lineWidth = some s.thickness) :
    (m.applyLineStyle s).styleChangeCount = m.styleChangeCount := by
  unfold StyleManager.applyLineStyle
  dsimp only
  rw [StyleManager.setStrokeStyle_hit m _ hc h1, StyleManager.setLineWidth_hit m _ hc h2,
    StyleManager.applyDashPattern_styleChangeCount]

lemma StyleManager.applyLineStyle_uncached_count (m : StyleManager) (s : LineStyle)
    (hc : m.enableCaching = false) :
    (m.applyLineStyle s).styleChangeCount = m.styleChangeCount + 2 := by
  unfold StyleManager.applyLineStyle
  rw [StyleManager.applyDashPattern_styleChangeCount,
    StyleManager.setLineWidth_uncached _ _
      (by rw [StyleManager.setStrokeStyle_enableCaching]; exact hc),
    StyleManager.setStrokeStyle_uncached _ _ hc]

/-- Amended C3: `applyLineStyle` performs two counted attribute writes (stroke
paint and line width).  With caching enabled, the second of two consecutive
identical `applyLineStyle` calls adds nothing to the style-change counter
(from a fresh manager the pair adds two in total, both on the first call);
with caching disabled, each call adds two (four in total). -/
theorem style_caching_line_style (m : StyleManager) (s : LineStyle) :
    (m.enableCaching = true →
      ((m.applyLineStyle s).applyLineStyle s).styleChangeCount =
        (m.applyLineStyle s).styleChangeCount) ∧
    (m.enableCaching = false →
      (m.applyLineStyle s).styleChangeCount = m.styleChangeCount + 2 ∧
      ((m.applyLineStyle s).applyLineStyle s).styleChangeCount = m.styleChangeCount + 4) := by
  constructor
  · intro hc
    exact StyleManager.applyLineStyle_cached_hit _ s
      (by rw [StyleManager.applyLineStyle_enableCaching]; exact hc)
      (StyleManager.applyLineStyle_strokeStyle_cache m s)
      (StyleManager.applyLineStyle_lineWidth_cache m s)
  · intro hc
    have h1 := StyleManager.applyLineStyle_uncached_count m s hc
    have h2 := StyleManager.applyLineStyle_uncached_count (m.applyLineStyle s) s
      (by rw [StyleManager.applyLineStyle_enableCaching]; exact hc)
    exact ⟨h1, by omega⟩

/-- A concrete line style used in the C3 counterexample and witnesses. -/
def redLineStyle : LineStyle := { color := ⟨1, 0, 0, 1⟩, thickness := 2 }

/-- A fresh `StyleManager` over a default raster context. -/
def freshStyleManager (caching : Bool) : StyleManager :=
  { ctx := {}, enableCaching := caching }

/-- Counterexample to C3 as stated: from a fresh manager, two identical
`applyLineStyle` calls increment the style-change counter by 2 with caching
enabled (not 1) and by 4 with caching disabled (not 2), because each call
performs two counted attribute writes (stroke paint and line width). -/
theorem style_caching_line_style_counterexample :
    (((freshStyleManager true).applyLineStyle redLineStyle).applyLineStyle
        redLineStyle).styleChangeCount = 2 ∧
    ¬ (((freshStyleManager true).applyLineStyle redLineStyle).applyLineStyle
        redLineStyle).styleChangeCount = 1 ∧
    (((freshStyleManager false).applyLineStyle redLineStyle).applyLineStyle
        redLineStyle).styleChangeCount = 4 ∧
    ¬ (((freshStyleManager false).applyLineStyle redLineStyle).applyLineStyle
        redLineStyle).styleChangeCount = 2 := by
  refine ⟨?_, ?_, ?_, ?_⟩ <;> decide

/-- Witness for the amended C3 at a concrete fresh manager and style. -/
theorem style_caching_line_style_witness :
    (((freshStyleManager true).applyLineStyle redLineStyle).applyLineStyle
        redLineStyle).styleChangeCount =
      ((freshStyleManager true).applyLineStyle redLineStyle).styleChangeCount ∧
    ((freshStyleManager false).applyLineStyle redLineStyle).styleChangeCount =
      (freshStyleManager false).styleChangeCount + 2 :=
  ⟨(style_caching_line_style (freshStyleManager true) redLineStyle).1 rfl,
   ((style_caching_line_style (freshStyleManager false) redLineStyle).2 rfl).1⟩

/-- **C7.** After `restoreState` the cached-style snapshot is empty, so the
next application of any style attribute — for any value, including the one
applied immediately before the restore — performs a context write and
increments the style-change counter (this holds for all eight cached
attributes, whatever the caching flag); `resetCache` likewise empties the
snapshot while leaving the raster context and the counter untouched. -/
theorem restore_clears_style_cache (m : StyleManager) (sv fv : String) (wv : ℚ)
    (fov av bv : String) (gv : ℚ) (ov : String) :
    m.restoreState.currentStyle = {} ∧
    ((m.restoreState.setStrokeStyle sv).styleChangeCount = m.styleChangeCount + 1 ∧
      (m.restoreState.setStrokeStyle sv).ctx.attrs.strokeStyle = sv) ∧
    ((m.restoreState.setFillStyle fv).styleChangeCount = m.styleChangeCount + 1 ∧
      (m.restoreState.setFillStyle fv).ctx.attrs.fillStyle = fv) ∧
    ((m.restoreState.setLineWidth wv).styleChangeCount = m.styleChangeCount + 1 ∧
      (m.restoreState.setLineWidth wv).ctx.attrs.lineWidth = wv) ∧
    ((m.restoreState.setFont fov).styleChangeCount = m.styleChangeCount + 1 ∧
      (m.restoreState.setFont fov).ctx.attrs.font = fov) ∧
    ((m.restoreState.setTextAlign av).styleChangeCount = m.styleChangeCount + 1 ∧
      (m.restoreState.setTextAlign av).ctx.attrs.textAlign = av) ∧
    ((m.restoreState.setTextBaseline bv).styleChangeCount = m.styleChangeCount + 1 ∧
      (m.restoreState.setTextBaseline bv).ctx.attrs.textBaseline = bv) ∧
    ((m.restoreState.setGlobalAlpha gv).styleChangeCount = m.styleChangeCount + 1 ∧
      (m.restoreState.setGlobalAlpha gv).ctx.attrs.globalAlpha = gv) ∧
    ((m.restoreState.setGlobalCompositeOperation ov).styleChangeCount =
        m.styleChangeCount + 1 ∧
      (m.restoreState.setGlobalCompositeOperation ov).ctx.attrs.globalCompositeOperation
        = ov) ∧
    (m.resetCache.currentStyle = {} ∧ m.resetCache.ctx = m.ctx ∧
      m.resetCache.styleChangeCount = m.styleChangeCount) := by
  refine ⟨rfl, ⟨?_, ?_⟩, ⟨?_, ?_⟩, ⟨?_, ?_⟩, ⟨?_, ?_⟩, ⟨?_, ?_⟩, ⟨?_, ?_⟩, ⟨?_, ?_⟩,
    ⟨?_, ?_⟩, rfl, rfl, rfl⟩ <;>
  simp [StyleManager.restoreState, StyleManager.setStrokeStyle, StyleManager.setFillStyle,
    StyleManager.setLineWidth, StyleManager.setFont, StyleManager.setTextAlign,
    StyleManager.setTextBaseline, StyleManager.setGlobalAlpha,
    StyleManager.setGlobalCompositeOperation]

/-- Draw command kinds (the `type` tag union of interface `DrawCommand`). -/
inductive DrawType where
  | line | circle | rect | polygon | text | texture
deriving DecidableEq, Repr

/-- Kind-specific draw command payloads (`LineDrawData`, `CircleDrawData`,
`RectDrawData`, `PolygonDrawData`, `TextDrawData`). -/
inductive DrawData where
  | line (start stop : FixedVector2)
  | circle (center : FixedVector2) (radius : ℚ)
  | rect (x y width height : ℚ)
  | polygon (vertices : List FixedVector2)
  | text (txt : String) (position : FixedVector2)
deriving DecidableEq, Repr

/-- Whether a payload is a circle payload. -/
def DrawData.isCircle : DrawData → Bool
  | .circle _ _ => true
  | _ => false

/-- The style value stored in a draw command (`unknown` in the source; one of
the three style descriptors).  Grouping compares styles structurally
(`JSON.stringify` on the style value). -/
inductive Style where
  | line (s : LineStyle)
  | shape (s : ShapeStyle)
  | text (s : TextStyle)
deriving DecidableEq, Repr

/-- A buffered draw command (interface `DrawCommand`). -/
structure DrawCommand where
  type : DrawType
  data : DrawData
  style : Style
deriving DecidableEq, Repr

/-- A batch group of commands sharing a `(type, structural style)` key
(interface `BatchGroup`). -/
structure BatchGroup where
  type : DrawType
  style : Style
  commands : List DrawCommand
deriving DecidableEq, Repr

/-- `BatchManager.groupCommands` step: find the group with this command's
`(type, style)` key and append the command to it, or append a fresh group at
the end (the source keeps a `Map` from key to group alongside the ordered
`groups` array; keys are unique in the array, so looking up the first match
is the same). -/
def insertIntoGroups (groups : List BatchGroup) (command : DrawCommand) : List BatchGroup :=
  match groups with
  | [] => [⟨command.type, command.style, [command]⟩]
  | g :: gs =>
      if g.type = command.type ∧ g.style = command.style then
        ⟨g.type, g.style, g.commands ++ [command]⟩ :: gs
      else
        g :: insertIntoGroups gs command

/-- `BatchManager.groupCommands`: stable grouping by `(type, structural
style)` key, groups ordered by first appearance, commands in arrival order. -/
def groupCommands (commands : List DrawCommand) : List BatchGroup :=
  commands.foldl insertIntoGroups []

/-- A texture handed to `drawTexture`: either the renderer's own wrapper type
`CanvasTexture` (class in `CanvasTypes.ts`; carries its source dimensions) or
any other `ITexture` implementation (`instanceof CanvasTexture` fails). -/
inductive Texture where
  | canvasTexture (width height : ℚ)
  | foreign (descr : String)
deriving DecidableEq, Repr

/-- Texture style descriptor (render-core `TextureStyle`). -/
structure TextureStyle where
  tint : Option Color := none
  opacity : Option ℚ := none
  scale : Option FixedVector2 := none
  rotation : Option ℚ := none
  anchor : Option FixedVector2 := none
  flipX : Bool := false
  flipY : Bool := false
deriving DecidableEq, Repr

/-- Observable raster events emitted by the renderer: the replay of one draw
command's geometry (path construction plus fill/stroke/fillText), a texture
`drawImage`, or a `console.warn`. -/
inductive REvent where
  | drawn (c : DrawCommand)
  | drawnTexture (width height : ℚ) (pos : ScreenPoint)
  | drawnTextureRegion (width height : ℚ) (src : FixedRect) (dst : ScreenRect)
  | warn (msg : String)
deriving DecidableEq, Repr

/-- Per-frame statistics (interface `CanvasRenderStats`). -/
structure CanvasRenderStats where
  drawCalls : ℕ := 0
  batchedDrawCalls : ℕ := 0
  styleChanges : ℕ := 0
  transformChanges : ℕ := 0
  textureBinds : ℕ := 0
  pixelsDrawn : ℚ := 0
  frameTime : ℚ := 0
deriving DecidableEq, Repr

/-- Combined state of a `CanvasRenderer` together with its `BatchManager`:
the two classes share the single raster context (held here inside
`styleManager`) and the batch manager's immediate-draw callbacks are the
renderer's private `draw*Immediate` methods, so they are modelled as one
state record.  `transformStackDepth` is a JS number in the source and is
modelled as `ℤ` so that the never-negative invariant is a real statement. -/
structure Renderer where
  styleManager : StyleManager
  coordinateSystem : CoordinateSystem
  canvas : ScreenSize
  batchCommands : List DrawCommand := []
  batchingEnabled : Bool := false
  batchedDrawCallCount : ℕ := 0
  maxBatchSize : ℕ := 1000
  transformStackDepth : ℤ := 0
  stats : CanvasRenderStats := {}
  enableBatchRendering : Bool := true
deriving DecidableEq, Repr

/-- `CanvasRenderer.drawLineImmediate`: apply the line style, then build and
stroke the two-point path at screen coordinates. -/
def Renderer.drawLineImmediate (rs : Renderer) (start stop : FixedVector2)
    (style : LineStyle) : Renderer × List REvent :=
  let m := rs.styleManager.applyLineStyle style
  let _startScreen := rs.coordinateSystem.worldToScreen start
  let _stopScreen := rs.coordinateSystem.worldToScreen stop
  ({ rs with styleManager := m }, [.drawn ⟨.line, .line start stop, .line style⟩])

/-- `CanvasRenderer.drawCircleImmediate`: build the arc path, then fill and/or
stroke depending on which style colors are present (each presence applies the
shape style once more, as in the source). -/
def Renderer.drawCircleImmediate (rs : Renderer) (center : FixedVector2) (radius : ℚ)
    (style : ShapeStyle) : Renderer × List REvent :=
  let _centerScreen := rs.coordinateSystem.worldToScreen center
  let _radiusPixels := rs.coordinateSystem.worldToScreenDistance radius
  let m1 := if style.fillColor.isSome then rs.styleManager.applyShapeStyle style
            else rs.styleManager
  let m2 := if style.strokeColor.isSome then m1.applyShapeStyle style else m1
  ({ rs with styleManager := m2 }, [.drawn ⟨.circle, .circle center radius, .shape style⟩])

/-- `CanvasRenderer.drawRectImmediate`. -/
def Renderer.drawRectImmediate (rs : Renderer) (bounds : FixedRect)
    (style : ShapeStyle) : Renderer × List REvent :=
  let _screenRect := rs.coordinateSystem.worldToScreenRect bounds
  let m1 := if style.fillColor.isSome then rs.styleManager.applyShapeStyle style
            else rs.styleManager
  let m2 := if style.strokeColor.isSome then m1.applyShapeStyle style else m1
  ({ rs with styleManager := m2 },
   [.drawn ⟨.rect, .rect bounds.x bounds.y bounds.width bounds.height, .shape style⟩])

/-- `CanvasRenderer.drawPolygonImmediate`: draws nothing for fewer than three
vertices. -/
def Renderer.drawPolygonImmediate (rs : Renderer) (vertices : List FixedVector2)
    (style : ShapeStyle) : Renderer × List REvent :=
  if vertices.length < 3 then (rs, [])
  else
    let m1 := if style.fillColor.isSome then rs.styleManager.applyShapeStyle style
              else rs.styleManager
    let m2 := if style.strokeColor.isSome then m1.applyShapeStyle style else m1
    ({ rs with styleManager := m2 }, [.drawn ⟨.polygon, .polygon vertices, .shape style⟩])

/-- `CanvasRenderer.drawTextImmediate`: save the raster state, locally invert
the Y flip, apply the text style, draw the glyphs, restore.  (The restore is
a raw `ctx.restore()`, not `StyleManager.restoreState`, so the style cache is
not cleared here — as in the source.) -/
def Renderer.drawTextImmediate (rs : Renderer) (txt : String) (position : FixedVector2)
    (style : TextStyle) : Renderer × List REvent :=
  let m1 := { rs.styleManager with ctx := rs.styleManager.ctx.save }
  let m2 := { m1 with ctx.attrs.transformOps :=
                m1.ctx.attrs.transformOps ++ [CtxTransformOp.scaleBy 1 (-1)] }
  let m3 := m2.applyTextStyle style
  let _screenPos := rs.coordinateSystem.worldToScreen position
  let m4 := { m3 with ctx := m3.ctx.restore }
  ({ rs with styleManager := m4 }, [.drawn ⟨.text, .text txt position, .text style⟩])

/-- `BatchManager.executeLineGroup`: apply the group's style once, then build
a single path with one `moveTo`/`lineTo` pair per command and stroke it once.
(A group whose style is not a `LineStyle` can only arise from a type-confused
cast and never from `addLine`; its style application is skipped here.) -/
def Renderer.executeLineGroup (rs : Renderer) (g : BatchGroup) : Renderer × List REvent :=
  match g.style with
  | .line ls => ({ rs with styleManager := rs.styleManager.applyLineStyle ls },
                 g.commands.map REvent.drawn)
  | _ => (rs, g.commands.map REvent.drawn)

/-- The loop body of `BatchManager.executeCircleGroup`: replay each command
through `drawCircleImmediate` with the group's style.  (A non-circle payload
would make the source dereference `undefined` fields; such commands are never
produced by `addCircle` and are skipped here.) -/
def Renderer.runCircleCommands (style : ShapeStyle) :
    Renderer → List DrawCommand → Renderer × List REvent
  | rs, [] => (rs, [])
  | rs, c :: cs =>
      match c.data with
      | .circle center radius =>
          let p1 := rs.drawCircleImmediate center radius style
          let p2 := Renderer.runCircleCommands style p1.1 cs
          (p2.1, p1.2 ++ p2.2)
      | _ => Renderer.runCircleCommands style rs cs

/-- `BatchManager.executeCircleGroup`.  A group style that is not a
`ShapeStyle` behaves like one with every field `undefined` (the JS cast reads
missing properties), so it is replaced by the empty shape style. -/
def Renderer.executeCircleGroup (rs : Renderer) (g : BatchGroup) : Renderer × List REvent :=
  match g.style with
  | .shape ss => Renderer.runCircleCommands ss rs g.commands
  | _ => Renderer.runCircleCommands {} rs g.commands

/-- The loop body of `BatchManager.executeRectGroup`. -/
def Renderer.runRectCommands (style : ShapeStyle) :
    Renderer → List DrawCommand → Renderer × List REvent
  | rs, [] => (rs, [])
  | rs, c :: cs =>
      match c.data with
      | .rect x y w h =>
          let p1 := rs.drawRectImmediate ⟨x, y, w, h⟩ style
          let p2 := Renderer.runRectCommands style p1.1 cs
          (p2.1, p1.2 ++ p2.2)
      | _ => Renderer.runRectCommands style rs cs

/-- `BatchManager.executeRectGroup`. -/
def Renderer.executeRectGroup (rs : Renderer) (g : BatchGroup) : Renderer × List REvent :=
  match g.style with
  | .shape ss => Renderer.runRectCommands ss rs g.commands
  | _ => Renderer.runRectCommands {} rs g.commands

/-- The loop body of `BatchManager.executePolygonGroup`. -/
def Renderer.runPolygonCommands (style : ShapeStyle) :
    Renderer → List DrawCommand → Renderer × List REvent
  | rs, [] => (rs, [])
  | rs, c :: cs =>
      match c.data with
      | .polygon vertices =>
          let p1 := rs.drawPolygonImmediate vertices style
          let p2 := Renderer.runPolygonCommands style p1.1 cs
          (p2.1, p1.2 ++ p2.2)
      | _ => Renderer.runPolygonCommands style rs cs

/-- `BatchManager.executePolygonGroup`. -/
def Renderer.executePolygonGroup (rs : Renderer) (g : BatchGroup) : Renderer × List REvent :=
  match g.style with
  | .shape ss => Renderer.runPolygonCommands ss rs g.commands
  | _ => Renderer.runPolygonCommands {} rs g.commands

/-- The loop body of `BatchManager.executeTextGroup`.  (A group style that is
not a `TextStyle` would make the source's cast read `undefined` fields inside
`applyTextStyle`; such groups are never produced by `addText` and the style
application degenerates to replaying the commands.) -/
def Renderer.runTextCommands (style : TextStyle) :
    Renderer → List DrawCommand → Renderer × List REvent
  | rs, [] => (rs, [])
  | rs, c :: cs =>
      match c.data with
      | .text txt position =>
          let p1 := rs.drawTextImmediate txt position style
          let p2 := Renderer.runTextCommands style p1.1 cs
          (p2.1, p1.2 ++ p2.2)
      | _ => Renderer.runTextCommands style rs cs

/-- `BatchManager.executeTextGroup`. -/
def Renderer.executeTextGroup (rs : Renderer) (g : BatchGroup) : Renderer × List REvent :=
  match g.style with
  | .text ts => Renderer.runTextCommands ts rs g.commands
  | _ => (rs, g.commands.map REvent.drawn)

/-- `BatchManager.executeGroup`: dispatch on the group's kind.  The source
switch has no `texture` case, so a texture group executes nothing. -/
def Renderer.executeGroup (rs : Renderer) (g : BatchGroup) : Renderer × List REvent :=
  match g.type with
  | .line => rs.executeLineGroup g
  | .circle => rs.executeCircleGroup g
  | .rect => rs.executeRectGroup g
  | .polygon => rs.executePolygonGroup g
  | .text => rs.executeTextGroup g
  | .texture => (rs, [])

/-- The `for (const group of groups)` loop of `BatchManager.executeBatch`. -/
def Renderer.executeGroups : Renderer → List BatchGroup → Renderer × List REvent
  | rs, [] => (rs, [])
  | rs, g :: gs =>
      let p1 := rs.executeGroup g
      let p2 := Renderer.executeGroups p1.1 gs
      (p2.1, p1.2 ++ p2.2)

/-- `BatchManager.executeBatch`: nothing on an empty buffer; otherwise group
the buffered commands, execute every group, and add the number of groups to
the batched-draw-call counter. -/
def Renderer.executeBatch (rs : Renderer) : Renderer × List REvent :=
  if rs.batchCommands.length = 0 then (rs, [])
  else
    let groups := groupCommands rs.batchCommands
    let p := rs.executeGroups groups
    ({ p.1 with batchedDrawCallCount := p.1.batchedDrawCallCount + groups.length }, p.2)

/-- `BatchManager.beginBatch`: enable batching, clear the buffer, zero the
batched-draw-call counter.  No buffered command is executed (no events). -/
def Renderer.beginBatch (rs : Renderer) : Renderer × List REvent :=
  ({ rs with batchingEnabled := true, batchCommands := [], batchedDrawCallCount := 0 }, [])

/-- `BatchManager.endBatch`: when batching, execute the batch, disable
batching and clear the buffer. -/
def Renderer.endBatch (rs : Renderer) : Renderer × List REvent :=
  if rs.batchingEnabled then
    let p := rs.executeBatch
    ({ p.1 with batchingEnabled := false, batchCommands := [] }, p.2)
  else (rs, [])

/-- `BatchManager.flushBatch`: when the buffer is nonempty, execute it and
clear it; the enabled/disabled state is untouched. -/
def Renderer.flushBatch (rs : Renderer) : Renderer × List REvent :=
  if rs.batchCommands.length > 0 then
    let p := rs.executeBatch
    ({ p.1 with batchCommands := [] }, p.2)
  else (rs, [])

/-- `BatchManager.addCommand`: push the command, auto-flush when the buffer
reaches the configured maximum size. -/
def Renderer.addCommand (rs : Renderer) (command : DrawCommand) : Renderer × List REvent :=
  let rs1 := { rs with batchCommands := rs.batchCommands ++ [command] }
  if rs1.maxBatchSize ≤ rs1.batchCommands.length then rs1.flushBatch else (rs1, [])

/-- `BatchManager.addLine`: draw immediately when batching is disabled, else
buffer a line command. -/
def Renderer.addLine (rs : Renderer) (start stop : FixedVector2) (style : LineStyle) :
    Renderer × List REvent :=
  if !rs.batchingEnabled then rs.drawLineImmediate start stop style
  else rs.addCommand ⟨.line, .line start stop, .line style⟩

/-- `BatchManager.addCircle`. -/
def Renderer.addCircle (rs : Renderer) (center : FixedVector2) (radius : ℚ)
    (style : ShapeStyle) : Renderer × List REvent :=
  if !rs.batchingEnabled then rs.drawCircleImmediate center radius style
  else rs.addCommand ⟨.circle, .circle center radius, .shape style⟩

/-- `BatchManager.addRect`. -/
def Renderer.addRect (rs : Renderer) (bounds : FixedRect) (style : ShapeStyle) :
    Renderer × List REvent :=
  if !rs.batchingEnabled then rs.drawRectImmediate bounds style
  else rs.addCommand
    ⟨.rect, .rect bounds.x bounds.y bounds.width bounds.height, .shape style⟩

/-- `BatchManager.addPolygon`. -/
def Renderer.addPolygon (rs : Renderer) (vertices : List FixedVector2)
    (style : ShapeStyle) : Renderer × List REvent :=
  if !rs.batchingEnabled then rs.drawPolygonImmediate vertices style
  else rs.addCommand ⟨.polygon, .polygon vertices, .shape style⟩

/-- `BatchManager.addText`. -/
def Renderer.addText (rs : Renderer) (txt : String) (position : FixedVector2)
    (style : TextStyle) : Renderer × List REvent :=
  if !rs.batchingEnabled then rs.drawTextImmediate txt position style
  else rs.addCommand ⟨.text, .text txt position, .text style⟩

/-- A call to one of the renderer's batchable drawing entry points. -/
inductive DrawCall where
  | line (start stop : FixedVector2) (style : LineStyle)
  | circle (center : FixedVector2) (radius : ℚ) (style : ShapeStyle)
  | rect (bounds : FixedRect) (style : ShapeStyle)
  | polygon (vertices : List FixedVector2) (style : ShapeStyle)
  | text (txt : String) (position : FixedVector2) (style : TextStyle)
deriving DecidableEq, Repr

/-- `CanvasRenderer.onDrawLine`: route to the batch manager or the immediate
implementation depending on configuration, then count the draw call. -/
def Renderer.onDrawLine (rs : Renderer) (start stop : FixedVector2) (style : LineStyle) :
    Renderer × List REvent :=
  let p := if rs.enableBatchRendering then rs.addLine start stop style
           else rs.drawLineImmediate start stop style
  ({ p.1 with stats.drawCalls := p.1.stats.drawCalls + 1 }, p.2)

/-- `CanvasRenderer.onDrawCircle`. -/
def Renderer.onDrawCircle (rs : Renderer) (center : FixedVector2) (radius : ℚ)
    (style : ShapeStyle) : Renderer × List REvent :=
  let p := if rs.enableBatchRendering then rs.addCircle center radius style
           else rs.drawCircleImmediate center radius style
  ({ p.1 with stats.drawCalls := p.1.stats.drawCalls + 1 }, p.2)

/-- `CanvasRenderer.onDrawRect`. -/
def Renderer.onDrawRect (rs : Renderer) (bounds : FixedRect) (style : ShapeStyle) :
    Renderer × List REvent :=
  let p := if rs.enableBatchRendering then rs.addRect bounds style
           else rs.drawRectImmediate bounds style
  ({ p.1 with stats.drawCalls := p.1.stats.drawCalls + 1 }, p.2)

/-- `CanvasRenderer.onDrawPolygon`. -/
def Renderer.onDrawPolygon (rs : Renderer) (vertices : List FixedVector2)
    (style : ShapeStyle) : Renderer × List REvent :=
  let p := if rs.enableBatchRendering then rs.addPolygon vertices style
           else rs.drawPolygonImmediate vertices style
  ({ p.1 with stats.drawCalls := p.1.stats.drawCalls + 1 }, p.2)

/-- `CanvasRenderer.onDrawText`. -/
def Renderer.onDrawText (rs : Renderer) (txt : String) (position : FixedVector2)
    (style : TextStyle) : Renderer × List REvent :=
  let p := if rs.enableBatchRendering then rs.addText txt position style
           else rs.drawTextImmediate txt position style
  ({ p.1 with stats.drawCalls := p.1.stats.drawCalls + 1 }, p.2)

/-- Dispatch one drawing entry-point call. -/
def Renderer.onDraw (rs : Renderer) : DrawCall → Renderer × List REvent
  | .line start stop style => rs.onDrawLine start stop style
  | .circle center radius style => rs.onDrawCircle center radius style
  | .rect bounds style => rs.onDrawRect bounds style
  | .polygon vertices style => rs.onDrawPolygon vertices style
  | .text txt position style => rs.onDrawText txt position style

/-- Run a sequence of drawing entry-point calls, concatenating the emitted
raster events. -/
def Renderer.runCalls : Renderer → List DrawCall → Renderer × List REvent
  | rs, [] => (rs, [])
  | rs, dc :: rest =>
      let p1 := rs.onDraw dc
      let p2 := Renderer.runCalls p1.1 rest
      (p2.1, p1.2 ++ p2.2)

/-- The raster events the immediate implementation of a call emits (one
`drawn` event, except for degenerate polygons, which draw nothing). -/
def immediateEvents : DrawCall → List REvent
  | .line start stop style => [.drawn ⟨.line, .line start stop, .line style⟩]
  | .circle center radius style => [.drawn ⟨.circle, .circle center radius, .shape style⟩]
  | .rect bounds style =>
      [.drawn ⟨.rect, .rect bounds.x bounds.y bounds.width bounds.height, .shape style⟩]
  | .polygon vertices style =>
      if vertices.length < 3 then []
      else [.drawn ⟨.polygon, .polygon vertices, .shape style⟩]
  | .text txt position style => [.drawn ⟨.text, .text txt position, .text style⟩]

/-- A nested local transform (render-core `Transform2D`). -/
structure Transform2D where
  position : FixedVector2
  rotation : ℚ
  scale : FixedVector2
deriving DecidableEq, Repr

/-- `CanvasRenderer.applyTransform`: save the raster state, bump the depth
counter and the transform-change statistic, then translate to the
screen-projected position (Y compensated), rotate and scale. -/
def Renderer.applyTransform (rs : Renderer) (t : Transform2D) : Renderer :=
  let ctx1 := rs.styleManager.ctx.save
  let screenPos := rs.coordinateSystem.worldToScreen t.position
  let ops := [CtxTransformOp.translate (screenPos.x - rs.canvas.width / 2)
                (-(screenPos.y - rs.canvas.height / 2)),
              CtxTransformOp.rotate t.rotation,
              CtxTransformOp.scaleBy t.scale.x t.scale.y]
  { rs with styleManager.ctx := { ctx1 with attrs.transformOps :=
              ctx1.attrs.transformOps ++ ops }
            transformStackDepth := rs.transformStackDepth + 1
            stats.transformChanges := rs.stats.transformChanges + 1 }

/-- `CanvasRenderer.popTransform`: restore the raster state and decrement the
depth counter only when the depth is positive; otherwise do nothing.  (The
source then calls `super.popTransform()`, which only updates the external
`BaseRenderer` bookkeeping and is out of scope.) -/
def Renderer.popTransform (rs : Renderer) : Renderer :=
  if 0 < rs.transformStackDepth then
    { rs with styleManager.ctx := rs.styleManager.ctx.restore
              transformStackDepth := rs.transformStackDepth - 1 }
  else rs

/-- `CanvasRenderer.resetCanvasStats`: zero the per-frame statistics, the
style-change counter and the batched-draw-call counter. -/
def Renderer.resetCanvasStats (rs : Renderer) : Renderer :=
  { rs with stats := {}, styleManager.styleChangeCount := 0, batchedDrawCallCount := 0 }

/-- `CanvasRenderer.onBeginFrame`: save the raster state, reset the
transform-stack depth and the per-frame statistics.  (`applyCameraTransform`
is a no-op in the source.) -/
def Renderer.onBeginFrame (rs : Renderer) : Renderer :=
  Renderer.resetCanvasStats
    { rs with styleManager.ctx := rs.styleManager.ctx.save, transformStackDepth := 0 }

/-- The `while (this.transformStackDepth > 0) this.popTransform()` loop of
`onEndFrame`: each iteration at positive depth decrements the depth by one,
so iterating `depth.toNat` times is exactly the loop. -/
def Renderer.unwindTransforms : ℕ → Renderer → Renderer
  | 0, rs => rs
  | n + 1, rs => Renderer.unwindTransforms n rs.popTransform

/-- `CanvasRenderer.updateStatistics`. -/
def Renderer.updateStatistics (rs : Renderer) : Renderer :=
  { rs with stats.styleChanges := rs.styleManager.styleChangeCount
            stats.batchedDrawCalls := rs.batchedDrawCallCount
            stats.pixelsDrawn := rs.canvas.width * rs.canvas.height }

/-- `CanvasRenderer.onEndFrame`: flush any remaining batched commands, unwind
every remaining pushed transform, restore the raster state saved by
`onBeginFrame`, and recompute the statistics. -/
def Renderer.onEndFrame (rs : Renderer) : Renderer × List REvent :=
  let p := rs.flushBatch
  let rs2 := Renderer.unwindTransforms p.1.transformStackDepth.toNat p.1
  let rs3 := { rs2 with styleManager.ctx := rs2.styleManager.ctx.restore }
  (rs3.updateStatistics, p.2)

/-- The raster-context effect of `CanvasRenderer.applyTextureStyle`. -/
def applyTextureStyleCtx (ctx : CanvasCtx) (style : TextureStyle) (pos : ScreenPoint)
    (texW texH : ℚ) : CanvasCtx :=
  let c1 := match style.tint with
    | some t => { ctx with attrs.globalAlpha := t.a }
    | none => ctx
  let c2 := match style.opacity with
    | some o => { c1 with attrs.globalAlpha := c1.attrs.globalAlpha * o }
    | none => c1
  let c3 := match style.scale with
    | some sc => { c2 with attrs.transformOps :=
        c2.attrs.transformOps ++ [CtxTransformOp.scaleBy sc.x sc.y] }
    | none => c2
  let c4 := match style.rotation with
    | some r =>
        if r ≠ 0 then
          { c3 with attrs.transformOps := c3.attrs.transformOps ++
              [CtxTransformOp.translate pos.x pos.y, CtxTransformOp.rotate r,
               CtxTransformOp.translate (-pos.x) (-pos.y)] }
        else c3
    | none => c3
  let c5 := match style.anchor with
    | some a => { c4 with attrs.transformOps := c4.attrs.transformOps ++
        [CtxTransformOp.translate (-(texW * a.x)) (-(texH * a.y))] }
    | none => c4
  if style.flipX || style.flipY then
    let sx : ℚ := if style.flipX then -1 else 1
    let sy : ℚ := if style.flipY then -1 else 1
    let c6 := { c5 with attrs.transformOps := c5.attrs.transformOps ++
        [CtxTransformOp.scaleBy sx sy] }
    let c7 := if style.flipX then { c6 with attrs.transformOps :=
        c6.attrs.transformOps ++ [CtxTransformOp.translate (-texW) 0] } else c6
    if style.flipY then { c7 with attrs.transformOps :=
        c7.attrs.transformOps ++ [CtxTransformOp.translate 0 (-texH)] } else c7
  else c5

/-- `CanvasRenderer.drawTextureImmediate`: save, optionally apply the texture
style, `drawImage`, restore. -/
def Renderer.drawTextureImmediate (rs : Renderer) (texW texH : ℚ)
    (position : FixedVector2) (style : Option TextureStyle) : Renderer × List REvent :=
  let screenPos := rs.coordinateSystem.worldToScreen position
  let c1 := rs.styleManager.ctx.save
  let c2 := match style with
    | some st => applyTextureStyleCtx c1 st screenPos texW texH
    | none => c1
  let c3 := c2.restore
  ({ rs with styleManager.ctx := c3 }, [.drawnTexture texW texH screenPos])

/-- `CanvasRenderer.onDrawTexture`: a texture that is not an instance of
`CanvasTexture` produces only a `console.warn` and returns — no raster
operation, no counter change; otherwise draw it and count the draw call and
texture bind. -/
def Renderer.onDrawTexture (rs : Renderer) (texture : Texture)
    (position : FixedVector2) (style : Option TextureStyle) : Renderer × List REvent :=
  match texture with
  | .foreign _ => (rs, [.warn "Invalid texture type for Canvas renderer"])
  | .canvasTexture w h =>
      let p := rs.drawTextureImmediate w h position style
      ({ p.1 with stats.drawCalls := p.1.stats.drawCalls + 1
                  stats.textureBinds := p.1.stats.textureBinds + 1 }, p.2)

/-- `CanvasRenderer.drawTextureRegionImmediate`. -/
def Renderer.drawTextureRegionImmediate (rs : Renderer) (texW texH : ℚ)
    (sourceRect destRect : FixedRect) (style : Option TextureStyle) :
    Renderer × List REvent :=
  let destScreenRect := rs.coordinateSystem.worldToScreenRect destRect
  let c1 := rs.styleManager.ctx.save
  let c2 := match style with
    | some st => applyTextureStyleCtx c1 st ⟨destScreenRect.x, destScreenRect.y⟩ texW texH
    | none => c1
  let c3 := c2.restore
  ({ rs with styleManager.ctx := c3 },
   [.drawnTextureRegion texW texH sourceRect destScreenRect])

/-- `CanvasRenderer.onDrawTextureRegion`: same wrong-type guard as
`onDrawTexture`. -/
def Renderer.onDrawTextureRegion (rs : Renderer) (texture : Texture)
    (sourceRect destRect : FixedRect) (style : Option TextureStyle) :
    Renderer × List REvent :=
  match texture with
  | .foreign _ => (rs, [.warn "Invalid texture type for Canvas renderer"])
  | .canvasTexture w h =>
      let p := rs.drawTextureRegionImmediate w h sourceRect destRect style
      ({ p.1 with stats.drawCalls := p.1.stats.drawCalls + 1
                  stats.textureBinds := p.1.stats.textureBinds + 1 }, p.2)

/-- A concrete renderer in its initial configuration (default config over a
fresh context and an 800×600 canvas), used by witnesses. -/
def initialRenderer : Renderer :=
  { styleManager := freshStyleManager true
    coordinateSystem := ⟨100, ⟨800, 600⟩, ⟨0, 0⟩, 1⟩
    canvas := ⟨800, 600⟩ }

/-- **C8.** Supplying a texture that is not an instance of the renderer's own
`CanvasTexture` wrapper to `drawTexture` or `drawTextureRegion` emits exactly
one warning and returns with the renderer state unchanged: no raster drawing
operation is issued, no counter moves, no error is raised, and subsequent
rendering calls are unaffected. -/
theorem invalid_texture_warn_noop (rs : Renderer) (descr : String)
    (position : FixedVector2) (style : Option TextureStyle)
    (sourceRect destRect : FixedRect) :
    rs.onDrawTexture (.foreign descr) position style
      = (rs, [.warn "Invalid texture type for Canvas renderer"]) ∧
    rs.onDrawTextureRegion (.foreign descr) sourceRect destRect style
      = (rs, [.warn "Invalid texture type for Canvas renderer"]) :=
  ⟨rfl, rfl⟩

/-- **C9.** Whenever the pending batch buffer is empty — in particular while
batching is disabled (Idle state) — `flushBatch` is a complete no-op: the
entire renderer state (style cache, counters, batching flag, buffer) is
returned unchanged and no raster event is emitted. -/
theorem flush_empty_buffer_noop (rs : Renderer) (h : rs.batchCommands = []) :
    rs.flushBatch = (rs, []) := by
  unfold Renderer.flushBatch
  simp [h]

/-- Witness for C9 at the initial (Idle, empty-buffer) renderer. -/
theorem flush_empty_buffer_noop_witness :
    Renderer.flushBatch initialRenderer = (initialRenderer, []) :=
  flush_empty_buffer_noop initialRenderer rfl

/-- **C10.** After any `beginBatch` the pending buffer is empty, batching is
enabled and the batched-draw-call counter is zero; in particular a second
`beginBatch` issued while commands are still buffered discards them without
ever executing them (no raster event is emitted). -/
theorem begin_batch_resets (rs : Renderer) :
    (rs.beginBatch).1.batchCommands = [] ∧
    (rs.beginBatch).1.batchingEnabled = true ∧
    (rs.beginBatch).1.batchedDrawCallCount = 0 ∧
    (rs.beginBatch).2 = [] :=
  ⟨rfl, rfl, rfl, rfl⟩

lemma insertIntoGroups_match (g : BatchGroup) (gs : List BatchGroup) (c : DrawCommand)
    (h1 : g.type = c.type) (h2 : g.style = c.style) :
    insertIntoGroups (g :: gs) c = ⟨g.type, g.style, g.commands ++ [c]⟩ :: gs := by
  simp [insertIntoGroups, h1, h2]

lemma insertIntoGroups_skip (g : BatchGroup) (gs : List BatchGroup) (c : DrawCommand)
    (h : ¬(g.type = c.type ∧ g.style = c.style)) :
    insertIntoGroups (g :: gs) c = g :: insertIntoGroups gs c := by
  simp only [insertIntoGroups, if_neg h]

lemma foldl_insert_two_groups (s1 s2 : Style) (hne : s1 ≠ s2) :
    ∀ (cmds : List DrawCommand) (a b : List DrawCommand),
    (∀ c ∈ cmds, c.type = DrawType.circle ∧ (c.style = s1 ∨ c.style = s2)) →
    cmds.foldl insertIntoGroups
        [⟨DrawType.circle, s1, a⟩, ⟨DrawType.circle, s2, b⟩] =
      [⟨DrawType.circle, s1, a ++ cmds.filter (fun c => c.style = s1)⟩,
       ⟨DrawType.circle, s2, b ++ cmds.filter (fun c => c.style = s2)⟩] := by
  intro cmds
  induction cmds with
  | nil => intro a b _; simp
  | cons c cs ih =>
      intro a b hall
      obtain ⟨hty, hst⟩ := hall c (by simp)
      have hall' : ∀ x ∈ cs, x.type = DrawType.circle ∧ (x.style = s1 ∨ x.style = s2) :=
        fun x hx => hall x (List.mem_cons_of_mem _ hx)
      rcases hst with h1 | h2
      · rw [List.foldl_cons,
          insertIntoGroups_match _ _ _ (by simp [hty]) (by simp [h1]),
          ih (a ++ [c]) b hall']
        simp [List.filter_cons, h1, hne]
      · have hskip : ¬((⟨DrawType.circle, s1, a⟩ : BatchGroup).type = c.type ∧
            (⟨DrawType.circle, s1, a⟩ : BatchGroup).style = c.style) :=
          fun hh => hne (hh.2.trans h2)
        rw [List.foldl_cons, insertIntoGroups_skip _ _ _ hskip,
          insertIntoGroups_match _ _ _ (by simp [hty]) (by simp [h2]),
          ih a (b ++ [c]) hall']
        simp [List.filter_cons, h2, Ne.symm hne]

lemma foldl_insert_one_group (s1 s2 : Style) (hne : s1 ≠ s2) :
    ∀ (cmds : List DrawCommand) (a : List DrawCommand),
    (∀ c ∈ cmds, c.type = DrawType.circle ∧ (c.style = s1 ∨ c.style = s2)) →
    s2 ∈ cmds.map (fun c => c.style) →
    cmds.foldl insertIntoGroups [⟨DrawType.circle, s1, a⟩] =
      [⟨DrawType.circle, s1, a ++ cmds.filter (fun c => c.style = s1)⟩,
       ⟨DrawType.circle, s2, cmds.filter (fun c => c.style = s2)⟩] := by
  intro cmds
  induction cmds with
  | nil => intro a _ hmem; simp at hmem
  | cons c cs ih =>
      intro a hall hmem
      obtain ⟨hty, hst⟩ := hall c (by simp)
      have hall' : ∀ x ∈ cs, x.type = DrawType.circle ∧ (x.style = s1 ∨ x.style = s2) :=
        fun x hx => hall x (List.mem_cons_of_mem _ hx)
      rcases hst with h1 | h2
      · have hmem' : s2 ∈ cs.map (fun c => c.style) := by
          rcases List.mem_map.mp hmem with ⟨x, hx, hxs⟩
          rcases List.mem_cons.mp hx with hxc | hxcs
          · exact absurd (hxs ▸ hxc ▸ h1 : s2 = s1).symm hne
          · exact List.mem_map.mpr ⟨x, hxcs, hxs⟩
        rw [List.foldl_cons,
          insertIntoGroups_match _ _ _ (by simp [hty]) (by simp [h1]),
          ih (a ++ [c]) hall' hmem']
        simp [List.filter_cons, h1, hne]
      · rw [List.foldl_cons,
          insertIntoGroups_skip _ _ _ (fun hh => hne (hh.2.trans h2))]
        have : insertIntoGroups [] c = [⟨c.type, c.style, [c]⟩] := rfl
        rw [this, hty, h2, foldl_insert_two_groups s1 s2 hne cs a [c] hall']
        simp [List.filter_cons, h2, Ne.symm hne]

lemma runCircleCommands_events (style : ShapeStyle) :
    ∀ (cs : List DrawCommand) (rs : Renderer),
    (∀ c ∈ cs, c.type = DrawType.circle ∧ c.data.isCircle = true ∧
      c.style = Style.shape style) →
    (Renderer.runCircleCommands style rs cs).2 = cs.map REvent.drawn := by
  intro cs
  induction cs with
  | nil => intro rs _; rfl
  | cons c cs ih =>
      intro rs hall
      obtain ⟨hty, hd, hst⟩ := hall c (by simp)
      obtain ⟨cty, cda, cst⟩ := c
      cases cda with
      | circle center radius =>
          have hty' : cty = DrawType.circle := hty
          have hst' : cst = Style.shape style := hst
          subst hty' hst'
          simp only [Renderer.runCircleCommands, Renderer.drawCircleImmediate,
            List.map_cons, List.singleton_append]
          rw [ih _ (fun x hx => hall x (List.mem_cons_of_mem _ hx))]
      | line a b => simp [DrawData.isCircle] at hd
      | rect x y w h => simp [DrawData.isCircle] at hd
      | polygon vs => simp [DrawData.isCircle] at hd
      | text t p => simp [DrawData.isCircle] at hd

lemma runCircleCommands_counters (style : ShapeStyle) :
    ∀ (cs : List DrawCommand) (rs : Renderer),
    (Renderer.runCircleCommands style rs cs).1.batchedDrawCallCount =
      rs.batchedDrawCallCount ∧
    (Renderer.runCircleCommands style rs cs).1.batchingEnabled = rs.batchingEnabled := by
  intro cs
  induction cs with
  | nil => intro rs; exact ⟨rfl, rfl⟩
  | cons c cs ih =>
      intro rs
      obtain ⟨cty, cda, cst⟩ := c
      cases cda with
      | circle center radius =>
          simp only [Renderer.runCircleCommands, Renderer.drawCircleImmediate]
          exact ih _
      | line a b => exact ih rs
      | rect x y w h => exact ih rs
      | polygon vs => exact ih rs
      | text t p => exact ih rs

lemma executeGroups_two_circle (rs : Renderer) (a1 a2 : ShapeStyle)
    (l1 l2 : List DrawCommand)
    (h1 : ∀ c ∈ l1, c.type = DrawType.circle ∧ c.data.isCircle = true ∧
      c.style = Style.shape a1)
    (h2 : ∀ c ∈ l2, c.type = DrawType.circle ∧ c.data.isCircle = true ∧
      c.style = Style.shape a2) :
    (Renderer.executeGroups rs
        [⟨DrawType.circle, Style.shape a1, l1⟩, ⟨DrawType.circle, Style.shape a2, l2⟩]).2
      = l1.map REvent.drawn ++ l2.map REvent.drawn ∧
    (Renderer.executeGroups rs
        [⟨DrawType.circle, Style.shape a1, l1⟩, ⟨DrawType.circle, Style.shape a2, l2⟩]
      ).1.batchedDrawCallCount = rs.batchedDrawCallCount := by
  simp only [Renderer.executeGroups, Renderer.executeGroup, Renderer.executeCircleGroup,
    List.append_nil]
  constructor
  · rw [runCircleCommands_events a1 l1 rs h1, runCircleCommands_events a2 l2 _ h2]
  · rw [(runCircleCommands_counters a2 l2 _).1, (runCircleCommands_counters a1 l1 rs).1]

/-- **C2.** For a batch buffer of `drawCircle` commands using exactly two
distinct (structural) shape styles interleaved in any order — the first
command carries style `a1` and style `a2` also occurs — `endBatch` groups the
buffer into exactly two groups keyed by `(kind, structural style)` in order
of first appearance, each group holding its commands in original arrival
order; it increments the batched-draw-call counter by exactly 2, and the
raster events replay first all `a1`-styled commands and then all `a2`-styled
commands, each in original relative order. -/
theorem batch_two_styles (rs : Renderer) (a1 a2 : ShapeStyle)
    (c0 : DrawCommand) (rest : List DrawCommand)
    (hbuf : rs.batchCommands = c0 :: rest)
    (hen : rs.batchingEnabled = true)
    (hne : Style.shape a1 ≠ Style.shape a2)
    (h0 : c0.style = Style.shape a1)
    (hall : ∀ c ∈ rs.batchCommands, c.type = DrawType.circle ∧ c.data.isCircle = true ∧
      (c.style = Style.shape a1 ∨ c.style = Style.shape a2))
    (hmem : Style.shape a2 ∈ rs.batchCommands.map (fun c => c.style)) :
    groupCommands rs.batchCommands =
      [⟨DrawType.circle, Style.shape a1,
          rs.batchCommands.filter (fun c => c.style = Style.shape a1)⟩,
       ⟨DrawType.circle, Style.shape a2,
          rs.batchCommands.filter (fun c => c.style = Style.shape a2)⟩] ∧
    (rs.endBatch).1.batchedDrawCallCount = rs.batchedDrawCallCount + 2 ∧
    (rs.endBatch).2 =
      (rs.batchCommands.filter (fun c => c.style = Style.shape a1)).map REvent.drawn ++
      (rs.batchCommands.filter (fun c => c.style = Style.shape a2)).map REvent.drawn := by
  have hall' : ∀ c ∈ rest, c.type = DrawType.circle ∧
      (c.style = Style.shape a1 ∨ c.style = Style.shape a2) := by
    intro c hc
    have := hall c (by rw [hbuf]; exact List.mem_cons_of_mem _ hc)
    exact ⟨this.1, this.2.2⟩
  have hty0 : c0.type = DrawType.circle := (hall c0 (by rw [hbuf]; simp)).1
  have hmem' : Style.shape a2 ∈ rest.map (fun c => c.style) := by
    rw [hbuf] at hmem
    rcases List.mem_map.mp hmem with ⟨x, hx, hxs⟩
    rcases List.mem_cons.mp hx with hxc | hxcs
    · exact absurd ((hxs ▸ hxc ▸ h0 : Style.shape a2 = Style.shape a1)) (Ne.symm hne)
    · exact List.mem_map.mpr ⟨x, hxcs, hxs⟩
  have hgroup : groupCommands rs.batchCommands =
      [⟨DrawType.circle, Style.shape a1,
          rs.batchCommands.filter (fun c => c.style = Style.shape a1)⟩,
       ⟨DrawType.circle, Style.shape a2,
          rs.batchCommands.filter (fun c => c.style = Style.shape a2)⟩] := by
    rw [hbuf]
    unfold groupCommands
    rw [List.foldl_cons]
    have hstep : insertIntoGroups [] c0 = [⟨c0.type, c0.style, [c0]⟩] := rfl
    rw [hstep, hty0, h0,
      foldl_insert_one_group (Style.shape a1) (Style.shape a2) hne rest [c0] hall' hmem']
    simp [List.filter_cons, h0, hne]
  have hfilt1 : ∀ c ∈ rs.batchCommands.filter (fun c => c.style = Style.shape a1),
      c.type = DrawType.circle ∧ c.data.isCircle = true ∧ c.style = Style.shape a1 := by
    intro c hc
    have hmemf := (List.mem_filter.mp hc).1
    have hsty := of_decide_eq_true (List.mem_filter.mp hc).2
    exact ⟨(hall c hmemf).1, (hall c hmemf).2.1, hsty⟩
  have hfilt2 : ∀ c ∈ rs.batchCommands.filter (fun c => c.style = Style.shape a2),
      c.type = DrawType.circle ∧ c.data.isCircle = true ∧ c.style = Style.shape a2 := by
    intro c hc
    have hmemf := (List.mem_filter.mp hc).1
    have hsty := of_decide_eq_true (List.mem_filter.mp hc).2
    exact ⟨(hall c hmemf).1, (hall c hmemf).2.1, hsty⟩
  have hexec := executeGroups_two_circle rs a1 a2
    (rs.batchCommands.filter (fun c => c.style = Style.shape a1))
    (rs.batchCommands.filter (fun c => c.style = Style.shape a2)) hfilt1 hfilt2
  have hlen : ¬(rs.batchCommands.length = 0) := by rw [hbuf]; simp
  have hbatch2 : (rs.executeBatch).1.batchedDrawCallCount = rs.batchedDrawCallCount + 2 ∧
      (rs.executeBatch).2 =
        (rs.batchCommands.filter (fun c => c.style = Style.shape a1)).map REvent.drawn ++
        (rs.batchCommands.filter (fun c => c.style = Style.shape a2)).map REvent.drawn := by
    unfold Renderer.executeBatch
    rw [if_neg hlen, hgroup]
    dsimp only
    constructor
    · rw [hexec.2]; rfl
    · exact hexec.1
  refine ⟨hgroup, ?_, ?_⟩ <;> unfold Renderer.endBatch <;> rw [hen, if_pos rfl] <;> dsimp only
  · exact hbatch2.1
  · exact hbatch2.2

/-- A fill-only shape style used by witnesses. -/
def shapeA : ShapeStyle := { fillColor := some ⟨1, 0, 0, 1⟩ }

/-- A stroke-only shape style used by witnesses. -/
def shapeB : ShapeStyle := { strokeColor := some ⟨0, 0, 1, 1⟩ }

/-- A buffered circle command used by witnesses. -/
def circleCmd (cx cy r : ℚ) (st : ShapeStyle) : DrawCommand :=
  ⟨DrawType.circle, DrawData.circle ⟨cx, cy⟩ r, Style.shape st⟩

/-- A renderer mid-batch holding four circle commands with the two styles
interleaved `A, B, A, B`. -/
def batchedRenderer : Renderer :=
  { initialRenderer with
      batchingEnabled := true
      batchCommands := [circleCmd 0 0 1 shapeA, circleCmd 1 0 1 shapeB,
                        circleCmd 2 0 1 shapeA, circleCmd 3 0 1 shapeB] }

/-- Witness for C2 on the concrete interleaved `A, B, A, B` batch. -/
theorem batch_two_styles_witness :
    groupCommands batchedRenderer.batchCommands =
      [⟨DrawType.circle, Style.shape shapeA,
          batchedRenderer.batchCommands.filter (fun c => c.style = Style.shape shapeA)⟩,
       ⟨DrawType.circle, Style.shape shapeB,
          batchedRenderer.batchCommands.filter (fun c => c.style = Style.shape shapeB)⟩] ∧
    (batchedRenderer.endBatch).1.batchedDrawCallCount =
      batchedRenderer.batchedDrawCallCount + 2 ∧
    (batchedRenderer.endBatch).2 =
      (batchedRenderer.batchCommands.filter
          (fun c => c.style = Style.shape shapeA)).map REvent.drawn ++
      (batchedRenderer.batchCommands.filter
          (fun c => c.style = Style.shape shapeB)).map REvent.drawn :=
  batch_two_styles batchedRenderer shapeA shapeB (circleCmd 0 0 1 shapeA)
    [circleCmd 1 0 1 shapeB, circleCmd 2 0 1 shapeA, circleCmd 3 0 1 shapeB]
    rfl rfl (by decide) rfl (by decide) (by decide)

/-- The renderer fields untouched by the batch-execution machinery (style
application only replaces `styleManager`; batch execution additionally only
touches the command buffer and the batched-draw-call counter). -/
structure CoreView where
  coordinateSystem : CoordinateSystem
  canvas : ScreenSize
  batchingEnabled : Bool
  maxBatchSize : ℕ
  transformStackDepth : ℤ
  stats : CanvasRenderStats
  enableBatchRendering : Bool

/-- Project the execution-invariant fields of a renderer state. -/
def coreView (rs : Renderer) : CoreView :=
  ⟨rs.coordinateSystem, rs.canvas, rs.batchingEnabled, rs.maxBatchSize,
   rs.transformStackDepth, rs.stats, rs.enableBatchRendering⟩

lemma coreView_drawLineImmediate (rs : Renderer) (a b : FixedVector2) (st : LineStyle) :
    coreView (rs.drawLineImmediate a b st).1 = coreView rs := rfl

lemma coreView_drawCircleImmediate (rs : Renderer) (c : FixedVector2) (r : ℚ)
    (st : ShapeStyle) : coreView (rs.drawCircleImmediate c r st).1 = coreView rs := rfl

lemma coreView_drawRectImmediate (rs : Renderer) (b : FixedRect) (st : ShapeStyle) :
    coreView (rs.drawRectImmediate b st).1 = coreView rs := rfl

lemma coreView_drawPolygonImmediate (rs : Renderer) (vs : List FixedVector2)
    (st : ShapeStyle) : coreView (rs.drawPolygonImmediate vs st).1 = coreView rs := by
  unfold Renderer.drawPolygonImmediate
  split <;> rfl

lemma coreView_drawTextImmediate (rs : Renderer) (t : String) (p : FixedVector2)
    (st : TextStyle) : coreView (rs.drawTextImmediate t p st).1 = coreView rs := rfl

lemma coreView_runCircleCommands (st : ShapeStyle) :
    ∀ (cs : List DrawCommand) (rs : Renderer),
    coreView (Renderer.runCircleCommands st rs cs).1 = coreView rs := by
  intro cs
  induction cs with
  | nil => intro rs; rfl
  | cons c cs ih =>
      intro rs
      obtain ⟨cty, cda, cst⟩ := c
      cases cda with
      | circle center radius =>
          simp only [Renderer.runCircleCommands]
          exact (ih _).trans (coreView_drawCircleImmediate rs center radius st)
      | line a b => exact ih rs
      | rect x y w h => exact ih rs
      | polygon vs => exact ih rs
      | text t p => exact ih rs

lemma coreView_runRectCommands (st : ShapeStyle) :
    ∀ (cs : List DrawCommand) (rs : Renderer),
    coreView (Renderer.runRectCommands st rs cs).1 = coreView rs := by
  intro cs
  induction cs with
  | nil => intro rs; rfl
  | cons c cs ih =>
      intro rs
      obtain ⟨cty, cda, cst⟩ := c
      cases cda with
      | rect x y w h =>
          simp only [Renderer.runRectCommands]
          exact (ih _).trans (coreView_drawRectImmediate rs ⟨x, y, w, h⟩ st)
      | line a b => exact ih rs
      | circle center radius => exact ih rs
      | polygon vs => exact ih rs
      | text t p => exact ih rs

lemma coreView_runPolygonCommands (st : ShapeStyle) :
    ∀ (cs : List DrawCommand) (rs : Renderer),
    coreView (Renderer.runPolygonCommands st rs cs).1 = coreView rs := by
  intro cs
  induction cs with
  | nil => intro rs; rfl
  | cons c cs ih =>
      intro rs
      obtain ⟨cty, cda, cst⟩ := c
      cases cda with
      | polygon vs =>
          simp only [Renderer.runPolygonCommands]
          exact (ih _).trans (coreView_drawPolygonImmediate rs vs st)
      | line a b => exact ih rs
      | circle center radius => exact ih rs
      | rect x y w h => exact ih rs
      | text t p => exact ih rs

lemma coreView_runTextCommands (st : TextStyle) :
    ∀ (cs : List DrawCommand) (rs : Renderer),
    coreView (Renderer.runTextCommands st rs cs).1 = coreView rs := by
  intro cs
  induction cs with
  | nil => intro rs; rfl
  | cons c cs ih =>
      intro rs
      obtain ⟨cty, cda, cst⟩ := c
      cases cda with
      | text t p =>
          simp only [Renderer.runTextCommands]
          exact (ih _).trans (coreView_drawTextImmediate rs t p st)
      | line a b => exact ih rs
      | circle center radius => exact ih rs
      | rect x y w h => exact ih rs
      | polygon vs => exact ih rs

lemma coreView_executeGroup (rs : Renderer) (g : BatchGroup) :
    coreView (rs.executeGroup g).1 = coreView rs := by
  obtain ⟨gt, gs, gc⟩ := g
  cases gt with
  | line => cases gs <;> rfl
  | circle =>
      cases gs with
      | shape ss => exact coreView_runCircleCommands ss gc rs
      | line ls => exact coreView_runCircleCommands {} gc rs
      | text ts => exact coreView_runCircleCommands {} gc rs
  | rect =>
      cases gs with
      | shape ss => exact coreView_runRectCommands ss gc rs
      | line ls => exact coreView_runRectCommands {} gc rs
      | text ts => exact coreView_runRectCommands {} gc rs
  | polygon =>
      cases gs with
      | shape ss => exact coreView_runPolygonCommands ss gc rs
      | line ls => exact coreView_runPolygonCommands {} gc rs
      | text ts => exact coreView_runPolygonCommands {} gc rs
  | text =>
      cases gs with
      | text ts => exact coreView_runTextCommands ts gc rs
      | line ls => rfl
      | shape ss => rfl
  | texture => rfl

lemma coreView_executeGroups :
    ∀ (gs : List BatchGroup) (rs : Renderer),
    coreView (Renderer.executeGroups rs gs).1 = coreView rs := by
  intro gs
  induction gs with
  | nil => intro rs; rfl
  | cons g gs ih =>
      intro rs
      simp only [Renderer.executeGroups]
      exact (ih _).trans (coreView_executeGroup rs g)

lemma coreView_executeBatch (rs : Renderer) :
    coreView rs.executeBatch.1 = coreView rs := by
  unfold Renderer.executeBatch
  split
  · rfl
  · exact coreView_executeGroups _ rs

lemma coreView_flushBatch (rs : Renderer) :
    coreView rs.flushBatch.1 = coreView rs := by
  unfold Renderer.flushBatch
  split
  · exact coreView_executeBatch rs
  · rfl

lemma coreView_addCommand (rs : Renderer) (c : DrawCommand) :
    coreView (rs.addCommand c).1 = coreView rs := by
  unfold Renderer.addCommand
  dsimp only
  split
  · exact coreView_flushBatch _
  · rfl

lemma transformStackDepth_eq_of_coreView {a b : Renderer}
    (h : coreView a = coreView b) : a.transformStackDepth = b.transformStackDepth :=
  congrArg CoreView.transformStackDepth h

/-- A transform-stack operation issued by the caller between `beginFrame` and
`endFrame`: a nested push (`pushTransform` routed to `applyTransform`) or a
`popTransform`. -/
inductive FrameOp where
  | push (t : Transform2D)
  | pop
deriving DecidableEq, Repr

/-- Run a sequence of transform-stack operations. -/
def Renderer.runFrameOps : Renderer → List FrameOp → Renderer
  | rs, [] => rs
  | rs, FrameOp.push t :: rest => Renderer.runFrameOps (rs.applyTransform t) rest
  | rs, FrameOp.pop :: rest => Renderer.runFrameOps rs.popTransform rest

lemma applyTransform_depth (rs : Renderer) (t : Transform2D) :
    (rs.applyTransform t).transformStackDepth = rs.transformStackDepth + 1 := rfl

lemma popTransform_depth_nonneg (rs : Renderer) (h : 0 ≤ rs.transformStackDepth) :
    0 ≤ rs.popTransform.transformStackDepth := by
  unfold Renderer.popTransform
  split
  · next hpos => dsimp only; omega
  · exact h

lemma runFrameOps_depth_nonneg :
    ∀ (ops : List FrameOp) (rs : Renderer), 0 ≤ rs.transformStackDepth →
    0 ≤ (rs.runFrameOps ops).transformStackDepth := by
  intro ops
  induction ops with
  | nil => intro rs h; exact h
  | cons op rest ih =>
      intro rs h
      cases op with
      | push t =>
          exact ih _ (by rw [applyTransform_depth]; omega)
      | pop => exact ih _ (popTransform_depth_nonneg rs h)

lemma unwindTransforms_depth :
    ∀ (n : ℕ) (rs : Renderer), rs.transformStackDepth = n →
    (Renderer.unwindTransforms n rs).transformStackDepth = 0 := by
  intro n
  induction n with
  | zero => intro rs h; exact h
  | succ n ih =>
      intro rs h
      unfold Renderer.unwindTransforms
      apply ih
      unfold Renderer.popTransform
      rw [if_pos (by omega)]
      dsimp only
      omega

/-- **C4.** The transform-stack depth counter is never negative: a
`popTransform` at depth 0 is a complete no-op on the raster state and the
counter; starting from `beginFrame`, any sequence of pushes and pops keeps
the depth nonnegative; and the `beginFrame` … `endFrame` pair always ends at
depth 0 even when the caller pushed without matching pops (`endFrame` unwinds
every remaining level). -/
theorem transform_stack_depth_safety (rs : Renderer) (ops : List FrameOp) :
    (rs.transformStackDepth = 0 → rs.popTransform = rs) ∧
    0 ≤ ((rs.onBeginFrame).runFrameOps ops).transformStackDepth ∧
    (((rs.onBeginFrame).runFrameOps ops).onEndFrame).1.transformStackDepth = 0 := by
  refine ⟨?_, ?_, ?_⟩
  · intro h
    unfold Renderer.popTransform
    rw [if_neg (by omega)]
  · exact runFrameOps_depth_nonneg ops rs.onBeginFrame (le_refl 0)
  · have hnn : 0 ≤ ((rs.onBeginFrame).runFrameOps ops).transformStackDepth :=
      runFrameOps_depth_nonneg ops rs.onBeginFrame (le_refl 0)
    set mid := (rs.onBeginFrame).runFrameOps ops with hmid
    unfold Renderer.onEndFrame
    have hflush : mid.flushBatch.1.transformStackDepth = mid.transformStackDepth :=
      transformStackDepth_eq_of_coreView (coreView_flushBatch mid)
    have hto : mid.flushBatch.1.transformStackDepth =
        (mid.flushBatch.1.transformStackDepth.toNat : ℤ) := by
      rw [Int.toNat_of_nonneg (by rw [hflush]; exact hnn)]
    have hunw := unwindTransforms_depth mid.flushBatch.1.transformStackDepth.toNat
      mid.flushBatch.1 hto
    dsimp only [Renderer.updateStatistics]
    exact hunw

/-- Concrete transform-stack operations (two pushes, one pop) used by the C4
witness. -/
def frameOpsSample : List FrameOp :=
  [FrameOp.push ⟨⟨1, 2⟩, 0, ⟨1, 1⟩⟩, FrameOp.push ⟨⟨3, 4⟩, 1, ⟨2, 2⟩⟩, FrameOp.pop]

/-- Witness for C4: surplus pop is a no-op at the initial renderer, and an
unbalanced push/push/pop frame still ends at depth 0. -/
theorem transform_stack_depth_safety_witness :
    Renderer.popTransform initialRenderer = initialRenderer ∧
    0 ≤ ((initialRenderer.onBeginFrame).runFrameOps frameOpsSample).transformStackDepth ∧
    ((((initialRenderer.onBeginFrame).runFrameOps
        frameOpsSample)).onEndFrame).1.transformStackDepth = 0 :=
  ⟨(transform_stack_depth_safety initialRenderer frameOpsSample).1 rfl,
   (transform_stack_depth_safety initialRenderer frameOpsSample).2.1,
   (transform_stack_depth_safety initialRenderer frameOpsSample).2.2⟩

lemma stats_eq_of_coreView {a b : Renderer} (h : coreView a = coreView b) :
    a.stats = b.stats :=
  congrArg CoreView.stats h

lemma enableBatch_eq_of_coreView {a b : Renderer} (h : coreView a = coreView b) :
    a.enableBatchRendering = b.enableBatchRendering :=
  congrArg CoreView.enableBatchRendering h

lemma coreView_addLine (rs : Renderer) (a b : FixedVector2) (st : LineStyle) :
    coreView (rs.addLine a b st).1 = coreView rs := by
  unfold Renderer.addLine
  split
  · exact coreView_drawLineImmediate rs a b st
  · exact coreView_addCommand rs _

lemma coreView_addCircle (rs : Renderer) (c : FixedVector2) (r : ℚ) (st : ShapeStyle) :
    coreView (rs.addCircle c r st).1 = coreView rs := by
  unfold Renderer.addCircle
  split
  · exact coreView_drawCircleImmediate rs c r st
  · exact coreView_addCommand rs _

lemma coreView_addRect (rs : Renderer) (b : FixedRect) (st : ShapeStyle) :
    coreView (rs.addRect b st).1 = coreView rs := by
  unfold Renderer.addRect
  split
  · exact coreView_drawRectImmediate rs b st
  · exact coreView_addCommand rs _

lemma coreView_addPolygon (rs : Renderer) (vs : List FixedVector2) (st : ShapeStyle) :
    coreView (rs.addPolygon vs st).1 = coreView rs := by
  unfold Renderer.addPolygon
  split
  · exact coreView_drawPolygonImmediate rs vs st
  · exact coreView_addCommand rs _

lemma coreView_addText (rs : Renderer) (t : String) (p : FixedVector2) (st : TextStyle) :
    coreView (rs.addText t p st).1 = coreView rs := by
  unfold Renderer.addText
  split
  · exact coreView_drawTextImmediate rs t p st
  · exact coreView_addCommand rs _

lemma onDraw_batching_on (rs : Renderer) (dc : DrawCall)
    (h : rs.enableBatchRendering = true) :
    (rs.onDraw dc).1.stats.drawCalls = rs.stats.drawCalls + 1 ∧
    (rs.onDraw dc).1.enableBatchRendering = true := by
  cases dc with
  | line a b st =>
      unfold Renderer.onDraw Renderer.onDrawLine
      dsimp only
      rw [if_pos h]
      have hcv := coreView_addLine rs a b st
      exact ⟨congrArg (fun s => s.drawCalls + 1) (stats_eq_of_coreView hcv),
        (enableBatch_eq_of_coreView hcv).trans h⟩
  | circle c r st =>
      unfold Renderer.onDraw Renderer.onDrawCircle
      dsimp only
      rw [if_pos h]
      have hcv := coreView_addCircle rs c r st
      exact ⟨congrArg (fun s => s.drawCalls + 1) (stats_eq_of_coreView hcv),
        (enableBatch_eq_of_coreView hcv).trans h⟩
  | rect b st =>
      unfold Renderer.onDraw Renderer.onDrawRect
      dsimp only
      rw [if_pos h]
      have hcv := coreView_addRect rs b st
      exact ⟨congrArg (fun s => s.drawCalls + 1) (stats_eq_of_coreView hcv),
        (enableBatch_eq_of_coreView hcv).trans h⟩
  | polygon vs st =>
      unfold Renderer.onDraw Renderer.onDrawPolygon
      dsimp only
      rw [if_pos h]
      have hcv := coreView_addPolygon rs vs st
      exact ⟨congrArg (fun s => s.drawCalls + 1) (stats_eq_of_coreView hcv),
        (enableBatch_eq_of_coreView hcv).trans h⟩
  | text t p st =>
      unfold Renderer.onDraw Renderer.onDrawText
      dsimp only
      rw [if_pos h]
      have hcv := coreView_addText rs t p st
      exact ⟨congrArg (fun s => s.drawCalls + 1) (stats_eq_of_coreView hcv),
        (enableBatch_eq_of_coreView hcv).trans h⟩

lemma onDraw_batching_off (rs : Renderer) (dc : DrawCall)
    (h : rs.enableBatchRendering = false) :
    (rs.onDraw dc).1.stats.drawCalls = rs.stats.drawCalls + 1 ∧
    (rs.onDraw dc).1.enableBatchRendering = false ∧
    (rs.onDraw dc).1.batchCommands = rs.batchCommands ∧
    (rs.onDraw dc).1.batchedDrawCallCount = rs.batchedDrawCallCount ∧
    (rs.onDraw dc).2 = immediateEvents dc := by
  have hn : ¬(rs.enableBatchRendering = true) := by simp [h]
  cases dc with
  | line a b st =>
      unfold Renderer.onDraw Renderer.onDrawLine
      dsimp only
      rw [if_neg hn]
      exact ⟨rfl, h, rfl, rfl, rfl⟩
  | circle c r st =>
      unfold Renderer.onDraw Renderer.onDrawCircle
      dsimp only
      rw [if_neg hn]
      exact ⟨rfl, h, rfl, rfl, rfl⟩
  | rect b st =>
      unfold Renderer.onDraw Renderer.onDrawRect
      dsimp only
      rw [if_neg hn]
      exact ⟨rfl, h, rfl, rfl, rfl⟩
  | polygon vs st =>
      unfold Renderer.onDraw Renderer.onDrawPolygon
      dsimp only
      rw [if_neg hn]
      simp only [Renderer.drawPolygonImmediate, immediateEvents]
      split
      · exact ⟨rfl, h, rfl, rfl, rfl⟩
      · exact ⟨rfl, h, rfl, rfl, rfl⟩
  | text t p st =>
      unfold Renderer.onDraw Renderer.onDrawText
      dsimp only
      rw [if_neg hn]
      exact ⟨rfl, h, rfl, rfl, rfl⟩

lemma runCalls_batching_off :
    ∀ (calls : List DrawCall) (rs : Renderer), rs.enableBatchRendering = false →
    (rs.runCalls calls).1.stats.drawCalls = rs.stats.drawCalls + calls.length ∧
    (rs.runCalls calls).1.batchCommands = rs.batchCommands ∧
    (rs.runCalls calls).1.batchedDrawCallCount = rs.batchedDrawCallCount ∧
    (rs.runCalls calls).1.enableBatchRendering = false ∧
    (rs.runCalls calls).2 = (calls.map immediateEvents).flatten := by
  intro calls
  induction calls with
  | nil => intro rs h; exact ⟨rfl, rfl, rfl, h, rfl⟩
  | cons dc rest ih =>
      intro rs h
      obtain ⟨h1, h2, h3, h4, h5⟩ := onDraw_batching_off rs dc h
      obtain ⟨g1, g2, g3, g4, g5⟩ := ih (rs.onDraw dc).1 h2
      simp only [Renderer.runCalls]
      refine ⟨?_, ?_, ?_, g4, ?_⟩
      · rw [g1, h1, List.length_cons]; omega
      · rw [g2, h3]
      · rw [g3, h4]
      · rw [g5, h5, List.map_cons]; simp [List.flatten_cons]

lemma runCalls_batching_on :
    ∀ (calls : List DrawCall) (rs : Renderer), rs.enableBatchRendering = true →
    (rs.runCalls calls).1.stats.drawCalls = rs.stats.drawCalls + calls.length ∧
    (rs.runCalls calls).1.enableBatchRendering = true := by
  intro calls
  induction calls with
  | nil => intro rs h; exact ⟨rfl, h⟩
  | cons dc rest ih =>
      intro rs h
      obtain ⟨h1, h2⟩ := onDraw_batching_on rs dc h
      obtain ⟨g1, g2⟩ := ih (rs.onDraw dc).1 h2
      simp only [Renderer.runCalls]
      refine ⟨?_, g2⟩
      rw [g1, h1, List.length_cons]; omega

/-- **C6.** With batch rendering disabled, every drawing entry point draws
immediately through the corresponding immediate-draw callback without
buffering (the raster trace is exactly one immediate draw per call, in order,
and the pending buffer never changes), and the batched-draw-call counter
stays at its initial value after every prefix of the sequence; the renderer's
draw-call counter reaches the same value (`+ calls.length`) whether batch
rendering is enabled or disabled. -/
theorem disabled_batching_draws_immediately (rs : Renderer) (calls : List DrawCall) :
    (({ rs with enableBatchRendering := false }).runCalls calls).1.stats.drawCalls =
      rs.stats.drawCalls + calls.length ∧
    (({ rs with enableBatchRendering := true }).runCalls calls).1.stats.drawCalls =
      rs.stats.drawCalls + calls.length ∧
    (({ rs with enableBatchRendering := false }).runCalls calls).2 =
      (calls.map immediateEvents).flatten ∧
    (({ rs with enableBatchRendering := false }).runCalls calls).1.batchCommands =
      rs.batchCommands ∧
    (∀ p q, calls = p ++ q →
      (({ rs with enableBatchRendering := false }).runCalls p).1.batchedDrawCallCount =
        rs.batchedDrawCallCount) := by
  have hoff := runCalls_batching_off calls { rs with enableBatchRendering := false } rfl
  have hon := runCalls_batching_on calls { rs with enableBatchRendering := true } rfl
  refine ⟨hoff.1, hon.1, hoff.2.2.2.2, hoff.2.1, ?_⟩
  intro p q _hpq
  exact (runCalls_batching_off p { rs with enableBatchRendering := false } rfl).2.2.1

/-- Concrete drawing calls used by the C6 witness. -/
def sampleCalls : List DrawCall :=
  [DrawCall.circle ⟨0, 0⟩ 1 shapeA, DrawCall.line ⟨0, 0⟩ ⟨1, 1⟩ redLineStyle]

/-- Witness for C6 at the initial renderer and a concrete two-call sequence
(the prefix split is taken after the first call). -/
theorem disabled_batching_draws_immediately_witness :
    (({ initialRenderer with enableBatchRendering := false }).runCalls
        sampleCalls).1.stats.drawCalls =
      initialRenderer.stats.drawCalls + sampleCalls.length ∧
    (({ initialRenderer with enableBatchRendering := true }).runCalls
        sampleCalls).1.stats.drawCalls =
      initialRenderer.stats.drawCalls + sampleCalls.length ∧
    (({ initialRenderer with enableBatchRendering := false }).runCalls
        sampleCalls).2 = (sampleCalls.map immediateEvents).flatten ∧
    (({ initialRenderer with enableBatchRendering := false }).runCalls
        [DrawCall.circle ⟨0, 0⟩ 1 shapeA]).1.batchedDrawCallCount =
      initialRenderer.batchedDrawCallCount :=
  ⟨(disabled_batching_draws_immediately initialRenderer sampleCalls).1,
   (disabled_batching_draws_immediately initialRenderer sampleCalls).2.1,
   (disabled_batching_draws_immediately initialRenderer sampleCalls).2.2.1,
   (disabled_batching_draws_immediately initialRenderer sampleCalls).2.2.2.2
     [DrawCall.circle ⟨0, 0⟩ 1 shapeA] [DrawCall.line ⟨0, 0⟩ ⟨1, 1⟩ redLineStyle] rfl⟩
